import Mathlib

/-!
# Verification of the local Python executor core (`local_executor/executor.py`)

A shallow embedding of the AST evaluator, its sandbox policy and resource
governor, and the `LocalPythonExecutor` facade.  Python's mutable heap
objects (the `_operations_count` counter dict shared by reference between a
caller's state and the shallow-copied state of a function invocation, and
the `PrintContainer` log buffer) are modelled with an explicit heap of
objects addressed by `Nat`; variable scopes (the Python `state` dicts) are
likewise heap entities so that closures can reference their defining scope
by address, as the Python closure `new_func` captures the `state` dict by
reference.  Machine recursion is modelled with a fuel parameter; running out
of fuel yields the artificial error `Err.outOfFuel`, distinct from every
error the Python code can raise.

The value model covers the value kinds reachable in the interpreted
fragment: ints (arbitrary precision, as in the host language), bools,
strings, None, tuples, lists, mutable dicts (by heap reference), the
PrintContainer, closures, tools, error/type objects and exception
instances.  Floats are outside the model, so the true-division operator and
float-producing power operations are not embedded.
-/

namespace LocalExec

/-- Association-list lookup, first binding wins (Python dict lookup). -/
def alookup {κ α : Type} [DecidableEq κ] : List (κ × α) → κ → Option α
  | [], _ => none
  | (k', v) :: rest, k => if k' = k then some v else alookup rest k

/-- Association-list update: overwrite in place if the key is present
(keeping its position, as Python dicts keep insertion order), else append. -/
def aset {κ α : Type} [DecidableEq κ] : List (κ × α) → κ → α → List (κ × α)
  | [], k, v => [(k, v)]
  | (k', v') :: rest, k, v =>
      if k' = k then (k, v) :: rest else (k', v') :: aset rest k v

/-- Single-pass in-place update at a key: `none` when the key is absent
(so read-and-write primitives traverse the map once). -/
def aupdate {κ α : Type} [DecidableEq κ] : List (κ × α) → κ → (α → α) → Option (List (κ × α))
  | [], _, _ => none
  | (k', v') :: rest, k, f =>
      if k' = k then some ((k, f v') :: rest)
      else (aupdate rest k f).map (fun l => (k', v') :: l)

/-! ## Syntax: the AST node kinds handled by `evaluate_ast` -/

/-- `ast.Constant` payloads reachable in the embedded fragment. -/
inductive Const where
  | cint (n : Int)
  | cbool (b : Bool)
  | cstr (s : String)
  | cnone
  deriving Repr, DecidableEq

/-- Binary operator tags of the `ast.BinOp` case (lines 201-229).  The
float-producing true-division operator `ast.Div` is outside the value
model and therefore not embedded. -/
inductive BinOpKind where
  | add | sub | mult | floorDiv | modOp | powOp
  | bitAnd | bitOr | bitXor | lshift | rshift
  deriving Repr, DecidableEq

/-- Unary operator tags of the `ast.UnaryOp` case (lines 230-241). -/
inductive UnaryKind where
  | usub | uadd | notOp | invert
  deriving Repr, DecidableEq

/-- Comparison operator tags of the `ast.Compare` case (lines 242-274). -/
inductive CmpKind where
  | eq | notEq | lt | ltE | gt | gtE | isOp | isNot | inOp | notIn
  deriving Repr, DecidableEq

/-- The syntax-node variants dispatched on by `evaluate_ast` (lines
191-417).  `tupleExpr` is `ast.Tuple`: it is matched as an assignment /
For-loop target but reaches the unsupported-node else branch when
evaluated as an expression.  `importStmt` is `ast.Import`: the evaluator
has no case for it, so it also reaches the else branch.  `otherNode`
stands for every remaining node class, carrying the class name used in
the else branch's message. -/
inductive Ast where
  | constant (c : Const)
  | name (id : String)
  | binop (op : BinOpKind) (left right : Ast)
  | unaryop (op : UnaryKind) (operand : Ast)
  | compare (left : Ast) (rest : List (CmpKind × Ast))
  | boolop (isAnd : Bool) (vals : List Ast)
  | call (func : Ast) (args : List Ast) (keywords : List (String × Ast))
  | assign (targets : List Ast) (value : Ast)
  | exprStmt (value : Ast)
  | ifStmt (test : Ast) (body orelse : List Ast)
  | forStmt (target : Ast) (iter : Ast) (body : List Ast)
  | whileStmt (test : Ast) (body : List Ast)
  | breakStmt
  | continueStmt
  | returnStmt (value : Option Ast)
  | functionDef (fname : String) (args : List String) (defaults : List Ast)
      (vararg kwarg : Option String) (body : List Ast)
  | tupleExpr (elts : List Ast)
  | importStmt (modname : String) (asname : Option String)
  | otherNode (className : String)

/-- The `__class__.__name__` rendering used by the unsupported-node branch
(line 417) and the failure wrapper of `evaluate_python_code` (line 489). -/
def astClassName : Ast → String
  | .constant _ => "Constant"
  | .name _ => "Name"
  | .binop _ _ _ => "BinOp"
  | .unaryop _ _ => "UnaryOp"
  | .compare _ _ => "Compare"
  | .boolop _ _ => "BoolOp"
  | .call _ _ _ => "Call"
  | .assign _ _ => "Assign"
  | .exprStmt _ => "Expr"
  | .ifStmt _ _ _ => "If"
  | .forStmt _ _ _ => "For"
  | .whileStmt _ _ => "While"
  | .breakStmt => "Break"
  | .continueStmt => "Continue"
  | .returnStmt _ => "Return"
  | .functionDef _ _ _ _ _ _ => "FunctionDef"
  | .tupleExpr _ => "Tuple"
  | .importStmt _ _ => "Import"
  | .otherNode cn => cn

/-! ## Values, heap objects, interpreter state -/

/-- The built-in callables of `BASE_PYTHON_TOOLS` (lines 42-95) that the
claims exercise, plus `customTool` standing for an arbitrary host tool
(modelled as effect-free and returning None — claims reference host tools
by name but never rely on a particular return value) and
`finalAnswerWrapped`, the wrapper installed by `evaluate_python_code`
(lines 462-468); the wrapped host `final_answer` tool is modelled as the
identity, so the wrapper raises the answer itself. -/
inductive Tool where
  | printTool | dictTool | tupleTool | listTool | rangeTool
  | lenTool | divmodTool
  | customTool (id : Nat)
  | finalAnswerWrapped
  deriving Repr, DecidableEq

/-- Runtime values.  `vref` is a mutable dict on the object heap, `vprint`
a `PrintContainer` on the object heap, `vclosure` the `new_func` closure
produced by the `ast.FunctionDef` case: it carries the function's
definition parts and the heap address of the defining scope (the Python
closure captures the `state` dict by reference and copies its contents at
call time).  `vtype` is an entry of the `ERRORS` table (a builtin
exception class used as a value); `vexc` an instance obtained by calling
such a class. -/
inductive Value where
  | vint (n : Int)
  | vbool (b : Bool)
  | vstr (s : String)
  | vnone
  | vtuple (vs : List Value)
  | vlist (vs : List Value)
  | vref (addr : Nat)
  | vprint (addr : Nat)
  | vclosure (fname : String) (args : List String) (defaults : List Ast)
      (vararg kwarg : Option String) (body : List Ast) (defScope : Nat)
  | vtool (t : Tool)
  | vtype (tyName : String)
  | vexc (tyName : String) (excArgs : List Value)

/-- Mutable heap objects: plain dicts (string-keyed, which covers every
dict reachable in the embedded fragment: the operations counter and the
dicts built by the `dict` tool from keyword arguments) and the
`PrintContainer` log buffer (lines 110-133). -/
inductive Obj where
  | dict (entries : List (String × Value))
  | printBuf (contents : String)

/-- The interpreter's mutable world: the scope heap (each Python `state`
dict, addressed by `Nat`; the session's persistent state is scope 0) and
the object heap. -/
structure InterpState where
  scopes : List (Nat × List (String × Value))
  heap : List (Nat × Obj)
  nextScope : Nat
  nextHeap : Nat

/-- Errors and control signals.  `interpreterError` is `InterpreterError`;
`hostError` any other Python exception surfacing during evaluation
(carrying its class name); `breakSignal`/`continueSignal`/`returnSignal`/
`finalAnswer` are the control-flow exceptions of lines 136-151;
`atNode` records the top-level statement being evaluated when an
exception reached `evaluate_python_code`'s handler (the `node` loop
variable used at line 489); `outOfFuel` is the embedding artifact. -/
inductive Err where
  | interpreterError (msg : String)
  | hostError (kind : String) (msg : String)
  | breakSignal
  | continueSignal
  | returnSignal (v : Value)
  | finalAnswer (v : Value)
  | atNode (node : Ast) (inner : Err)
  | outOfFuel

/-- Python exception class name of an error (used in the failure message
of line 489). -/
def errClassName : Err → String
  | .interpreterError _ => "InterpreterError"
  | .hostError kind _ => kind
  | .breakSignal => "BreakException"
  | .continueSignal => "ContinueException"
  | .returnSignal _ => "ReturnException"
  | .finalAnswer _ => "FinalAnswerException"
  | .atNode _ inner => errClassName inner
  | .outOfFuel => "OutOfFuel"

/-! ## The state-threading monad

Python mutates the `state` dict and heap objects in place, so mutations
performed before an exception was raised persist.  `M` therefore returns
the final `InterpState` alongside either a result or an error. -/

def M (α : Type) : Type := InterpState → Except Err α × InterpState

instance : Monad M where
  pure a := fun σ => (Except.ok a, σ)
  bind x f := fun σ =>
    match x σ with
    | (Except.ok a, σ') => f a σ'
    | (Except.error e, σ') => (Except.error e, σ')

/-- Raise an error/signal, keeping the state (Python exceptions do not
roll back mutations). -/
def throwM {α : Type} (e : Err) : M α := fun σ => (Except.error e, σ)

/-- `try`/`except`: run `x`; on error hand the error (and the state at the
raise point) to the handler. -/
def catchM {α : Type} (x : M α) (handler : Err → M α) : M α := fun σ =>
  match x σ with
  | (Except.ok a, σ') => (Except.ok a, σ')
  | (Except.error e, σ') => handler e σ'

/-! ## Primitive state operations -/

/-- Contents of the scope (Python `state` dict) at a heap address.  A
dangling address cannot arise from the embedded entry points; it is mapped
to a host `KeyError`. -/
def getScope (a : Nat) : M (List (String × Value)) := fun σ =>
  match alookup σ.scopes a with
  | some m => (Except.ok m, σ)
  | none => (Except.error (Err.hostError "KeyError" "missing scope"), σ)

/-- `state[k] = v` on the scope at address `a`. -/
def scopeSet (a : Nat) (k : String) (v : Value) : M Unit := fun σ =>
  match aupdate σ.scopes a (fun m => aset m k v) with
  | some scopes' =>
      (Except.ok (), InterpState.mk scopes' σ.heap σ.nextScope σ.nextHeap)
  | none => (Except.error (Err.hostError "KeyError" "missing scope"), σ)

/-- Allocate a fresh scope with the given contents, returning its address. -/
def allocScope (m : List (String × Value)) : M Nat := fun σ =>
  (Except.ok σ.nextScope,
    InterpState.mk ((σ.nextScope, m) :: σ.scopes) σ.heap (σ.nextScope + 1) σ.nextHeap)

/-- Allocate a fresh heap object, returning its address. -/
def heapAlloc (o : Obj) : M Nat := fun σ =>
  (Except.ok σ.nextHeap,
    InterpState.mk σ.scopes ((σ.nextHeap, o) :: σ.heap) σ.nextScope (σ.nextHeap + 1))

/-- Dereference a heap object. -/
def heapGet (a : Nat) : M Obj := fun σ =>
  match alookup σ.heap a with
  | some o => (Except.ok o, σ)
  | none => (Except.error (Err.hostError "KeyError" "missing object"), σ)

/-- Overwrite a heap object in place. -/
def heapSet (a : Nat) (o : Obj) : M Unit := fun σ =>
  match aupdate σ.heap a (fun _ => o) with
  | some heap' =>
      (Except.ok (), InterpState.mk σ.scopes heap' σ.nextScope σ.nextHeap)
  | none => (Except.error (Err.hostError "KeyError" "missing object"), σ)

/-! ## State observers used in theorem statements -/

/-- The value bound to `k` in the scope (Python `state` dict) at address
`a`, if any. -/
def scopeBinding (σ : InterpState) (a : Nat) (k : String) : Option Value :=
  match alookup σ.scopes a with
  | some m => alookup m k
  | none => none

/-- The integer behind `state["_operations_count"]["counter"]` for the
scope at address `a`, when the chain is well-formed. -/
def counterValue (σ : InterpState) (a : Nat) : Option Int :=
  match scopeBinding σ a "_operations_count" with
  | some (Value.vref r) =>
      match alookup σ.heap r with
      | some (Obj.dict d) =>
          match alookup d "counter" with
          | some (Value.vint c) => some c
          | _ => none
      | _ => none
  | _ => none

/-- The contents of the session's `PrintContainer`, when present. -/
def printBufferValue (σ : InterpState) : Option String :=
  match scopeBinding σ 0 "_print_outputs" with
  | some (Value.vprint a) =>
      match alookup σ.heap a with
      | some (Obj.printBuf s) => some s
      | _ => none
  | _ => none

/-! ## Constants (lines 24-40) and configuration -/

def DEFAULT_MAX_LEN_OUTPUT : Nat := 50000
def MAX_OPERATIONS : Nat := 10000000
def MAX_WHILE_ITERATIONS : Nat := 1000000

def BASE_BUILTIN_MODULES : List String :=
  ["math", "random", "datetime", "time", "json", "re", "string",
   "collections", "itertools", "functools", "operator"]

/-- The resource ceilings.  The source holds them in the module constants
`MAX_OPERATIONS` and `MAX_WHILE_ITERATIONS`; the embedding threads them as
a parameter so that theorems can witness limit behaviour at small,
kernel-evaluable instances, with `defaultConfig` the source's values. -/
structure Config where
  maxOperations : Nat
  maxWhileIterations : Nat

def defaultConfig : Config := Config.mk MAX_OPERATIONS MAX_WHILE_ITERATIONS

/-- Names of the builtin exception classes collected in the `ERRORS` table
(lines 18-22).  The real table holds every builtin exception class; the
embedding lists a representative selection (the claims depend only on the
resolution order, never on exact membership of this table). -/
def ERRORS_names : List String :=
  ["ArithmeticError", "AssertionError", "AttributeError", "BaseException",
   "Exception", "IndexError", "KeyError", "LookupError", "NameError",
   "NotImplementedError", "OverflowError", "RecursionError", "RuntimeError",
   "StopIteration", "TypeError", "ValueError", "ZeroDivisionError"]

/-- `truncate_content` (lines 154-158). -/
def truncate_content (content : String) (max_length : Nat) : String :=
  if content.length ≤ max_length then content
  else (content.take max_length) ++ "..."

/-! ## Dynamic value semantics -/

def constToValue : Const → Value
  | .cint n => .vint n
  | .cbool b => .vbool b
  | .cstr s => .vstr s
  | .cnone => .vnone

/-- Numeric view: Python booleans participate in arithmetic as 0/1. -/
def asIntValue : Value → Option Int
  | .vint n => some n
  | .vbool b => some (if b then 1 else 0)
  | _ => none

mutual

/-- Python `==` on the embedded values.  Numbers compare across the
int/bool boundary; tuples/lists compare elementwise within their own kind;
dicts, PrintContainers, type objects compare by identity (address /
name) — an approximation of Python's content equality for dicts that is
exact for every comparison the embedded fragment performs; closures,
tools and exception instances compare unequal unless syntactically
identical, mirroring Python object identity closely enough for the
fragment (no claim compares such objects). -/
def pyEq : Value → Value → Bool
  | .vint n, .vint m => n == m
  | .vint n, .vbool b => n == (if b then (1 : Int) else 0)
  | .vbool b, .vint m => (if b then (1 : Int) else 0) == m
  | .vbool b, .vbool c => b == c
  | .vstr s, .vstr t => s == t
  | .vnone, .vnone => true
  | .vtuple vs, .vtuple ws => pyEqList vs ws
  | .vlist vs, .vlist ws => pyEqList vs ws
  | .vref a, .vref b => a == b
  | .vprint a, .vprint b => a == b
  | .vtype a, .vtype b => a == b
  | _, _ => false

def pyEqList : List Value → List Value → Bool
  | [], [] => true
  | v :: vs, w :: ws => pyEq v w && pyEqList vs ws
  | _, _ => false
end

/-- Python `is` (identity), approximated: references by address, `None`,
booleans and type objects by value, everything else distinct. -/
def pyIs : Value → Value → Bool
  | .vnone, .vnone => true
  | .vbool b, .vbool c => b == c
  | .vref a, .vref b => a == b
  | .vprint a, .vprint b => a == b
  | .vtype a, .vtype b => a == b
  | _, _ => false

def strContains (hay needle : String) : Bool :=
  needle = "" || (hay.splitOn needle).length ≥ 2

/-- Python truthiness of the embedded values (empty containers and zero
are falsy; closures, tools and type objects are truthy). -/
def pyTruthy (v : Value) : M Bool :=
  match v with
  | .vint n => pure (n != 0)
  | .vbool b => pure b
  | .vstr s => pure (s != "")
  | .vnone => pure false
  | .vtuple vs => pure (!vs.isEmpty)
  | .vlist vs => pure (!vs.isEmpty)
  | .vref a => do
      let o ← heapGet a
      match o with
      | .dict d => pure (!d.isEmpty)
      | .printBuf s => pure (s != "")
  | .vprint a => do
      let o ← heapGet a
      match o with
      | .printBuf s => pure (s != "")
      | .dict d => pure (!d.isEmpty)
  | .vclosure _ _ _ _ _ _ _ => pure true
  | .vtool _ => pure true
  | .vtype _ => pure true
  | .vexc _ _ => pure true

/-- Python `in`. -/
def pyIn (l r : Value) : M Bool :=
  match r with
  | .vlist vs => pure (vs.any (fun w => pyEq l w))
  | .vtuple vs => pure (vs.any (fun w => pyEq l w))
  | .vstr t =>
      match l with
      | .vstr s => pure (strContains t s)
      | _ => throwM (Err.hostError "TypeError" "'in <string>' requires string as left operand")
  | .vref a => do
      let o ← heapGet a
      match o with
      | .dict d => pure (d.any (fun kv => pyEq l (Value.vstr kv.1)))
      | .printBuf _ => throwM (Err.hostError "TypeError" "argument is not iterable")
  | _ => throwM (Err.hostError "TypeError" "argument of this type is not iterable")

/-- Python `<` on the comparable embedded kinds (numbers with bool
coercion, strings); other operand kinds raise `TypeError`, matching
Python's behaviour for unordered cross-kind comparisons (the fragment
never orders sequences, so sequence ordering is not embedded). -/
def pyLt (l r : Value) : M Bool :=
  match asIntValue l, asIntValue r with
  | some a, some b => pure (a < b)
  | _, _ =>
      match l, r with
      | .vstr s, .vstr t => pure (s < t)
      | _, _ => throwM (Err.hostError "TypeError" "'<' not supported between these instances")

/-- One link of a comparison chain (lines 247-268). -/
def applyCmpOp (op : CmpKind) (l r : Value) : M Bool :=
  match op with
  | .eq => pure (pyEq l r)
  | .notEq => pure (!pyEq l r)
  | .lt => pyLt l r
  | .ltE => do
      let gt ← pyLt r l
      pure (!gt)
  | .gt => pyLt r l
  | .gtE => do
      let lt ← pyLt l r
      pure (!lt)
  | .isOp => pure (pyIs l r)
  | .isNot => pure (!pyIs l r)
  | .inOp => pyIn l r
  | .notIn => do
      let isIn ← pyIn l r
      pure (!isIn)

/-- Repetition of a sequence by an integer (Python `seq * n`). -/
def seqRepeat {α : Type} (l : List α) (n : Int) : List α :=
  (List.replicate n.toNat l).flatten

/-- The binary operators of lines 204-227 over the embedded values.
Arithmetic follows Python's semantics on arbitrary-precision ints with
booleans coerced to 0/1; `+` also concatenates strings, lists and tuples,
`*` also repeats sequences; `//`/`%` are floor division and its modulo;
`**` is embedded for non-negative exponents (a negative exponent yields a
float, outside the value model); incompatible operands raise `TypeError`
as the host language does. -/
def applyBinOp (op : BinOpKind) (l r : Value) : M Value :=
  match op, asIntValue l, asIntValue r with
  | .add, some a, some b => pure (.vint (a + b))
  | .sub, some a, some b => pure (.vint (a - b))
  | .mult, some a, some b => pure (.vint (a * b))
  | .floorDiv, some a, some b =>
      if b = 0 then throwM (Err.hostError "ZeroDivisionError" "integer division or modulo by zero")
      else pure (.vint (Int.fdiv a b))
  | .modOp, some a, some b =>
      if b = 0 then throwM (Err.hostError "ZeroDivisionError" "integer division or modulo by zero")
      else pure (.vint (Int.fmod a b))
  | .powOp, some a, some b =>
      if b < 0 then throwM (Err.hostError "TypeError" "negative integer power is outside the value model")
      else pure (.vint (a ^ b.toNat))
  | .bitAnd, some a, some b => pure (.vint (Int.land a b))
  | .bitOr, some a, some b => pure (.vint (Int.lor a b))
  | .bitXor, some a, some b => pure (.vint (Int.xor a b))
  | .lshift, some a, some b =>
      if b < 0 then throwM (Err.hostError "ValueError" "negative shift count")
      else pure (.vint (a * (2 : Int) ^ b.toNat))
  | .rshift, some a, some b =>
      if b < 0 then throwM (Err.hostError "ValueError" "negative shift count")
      else pure (.vint (Int.fdiv a ((2 : Int) ^ b.toNat)))
  | .add, _, _ =>
      match l, r with
      | .vstr s, .vstr t => pure (.vstr (s ++ t))
      | .vlist vs, .vlist ws => pure (.vlist (vs ++ ws))
      | .vtuple vs, .vtuple ws => pure (.vtuple (vs ++ ws))
      | _, _ => throwM (Err.hostError "TypeError" "unsupported operand types for +")
  | .mult, _, _ =>
      match l, r with
      | .vstr s, .vint n => pure (.vstr (String.join (seqRepeat [s] n)))
      | .vint n, .vstr s => pure (.vstr (String.join (seqRepeat [s] n)))
      | .vlist vs, .vint n => pure (.vlist (seqRepeat vs n))
      | .vint n, .vlist vs => pure (.vlist (seqRepeat vs n))
      | .vtuple vs, .vint n => pure (.vtuple (seqRepeat vs n))
      | .vint n, .vtuple vs => pure (.vtuple (seqRepeat vs n))
      | _, _ => throwM (Err.hostError "TypeError" "unsupported operand types for *")
  | _, _, _ => throwM (Err.hostError "TypeError" "unsupported operand types")

/-- The unary operators of lines 232-239. -/
def applyUnaryOp (op : UnaryKind) (v : Value) : M Value :=
  match op with
  | .usub =>
      match asIntValue v with
      | some a => pure (.vint (-a))
      | none => throwM (Err.hostError "TypeError" "bad operand type for unary -")
  | .uadd =>
      match asIntValue v with
      | some a => pure (.vint a)
      | none => throwM (Err.hostError "TypeError" "bad operand type for unary +")
  | .notOp => do
      let t ← pyTruthy v
      pure (.vbool (!t))
  | .invert =>
      match asIntValue v with
      | some a => pure (.vint (-(a + 1)))
      | none => throwM (Err.hostError "TypeError" "bad operand type for unary ~")

/-- The element sequence an iterable produces (Python iteration order):
used by the `ast.For` case (line 332, `for value in iter_value`) and by
the `tuple`/`list` tools.  Strings iterate as their characters, dicts as
their keys. -/
def getIterList (v : Value) : M (List Value) :=
  match v with
  | .vlist vs => pure vs
  | .vtuple vs => pure vs
  | .vstr s => pure (s.data.map (fun c => Value.vstr (String.mk [c])))
  | .vref a => do
      let o ← heapGet a
      match o with
      | .dict d => pure (d.map (fun kv => Value.vstr kv.1))
      | .printBuf _ => throwM (Err.hostError "TypeError" "object is not iterable")
  | _ => throwM (Err.hostError "TypeError" "object is not iterable")

/-- The iterable-to-tuple conversion of the tuple-target branches of
`ast.Assign` (lines 302-306) and `ast.For` (lines 336-340): a tuple is
taken as is; a non-tuple with `__iter__` that is not a string is
converted; anything else — including strings, which are iterable but
explicitly excluded — raises `InterpreterError("Cannot unpack non-tuple
value")`. -/
def unpackValues (v : Value) : M (List Value) :=
  match v with
  | .vtuple vs => pure vs
  | .vlist vs => pure vs
  | .vref a => do
      let o ← heapGet a
      match o with
      | .dict d => pure (d.map (fun kv => Value.vstr kv.1))
      | .printBuf _ => throwM (Err.interpreterError "Cannot unpack non-tuple value")
  | _ => throwM (Err.interpreterError "Cannot unpack non-tuple value")

def intRangeList (a b : Int) : List Value :=
  (List.range (b - a).toNat).map (fun i => Value.vint (a + i))

/-- Semantics of the modelled entries of `BASE_PYTHON_TOOLS` and of host
tools.  `print` is the source's stub `lambda *args: None` (line 43): it
ignores its arguments, writes nothing, and returns None.  `range` is
modelled as the eager list of its elements (1- and 2-argument forms).
`customTool` models an arbitrary effect-free host tool returning None;
`finalAnswerWrapped` models the wrapper of lines 465-466 with the wrapped
host tool taken to be the identity. -/
def applyTool (t : Tool) (args : List Value) (kwargs : List (String × Value)) : M Value :=
  match t with
  | .printTool => pure Value.vnone
  | .dictTool =>
      match args with
      | [] => do
          let a ← heapAlloc (Obj.dict kwargs)
          pure (Value.vref a)
      | _ => throwM (Err.hostError "TypeError" "dict positional arguments are outside the modelled fragment")
  | .tupleTool =>
      match args, kwargs with
      | [], [] => pure (Value.vtuple [])
      | [v], [] => do
          let vs ← getIterList v
          pure (Value.vtuple vs)
      | _, _ => throwM (Err.hostError "TypeError" "tuple expected at most 1 argument")
  | .listTool =>
      match args, kwargs with
      | [], [] => pure (Value.vlist [])
      | [v], [] => do
          let vs ← getIterList v
          pure (Value.vlist vs)
      | _, _ => throwM (Err.hostError "TypeError" "list expected at most 1 argument")
  | .rangeTool =>
      match args, kwargs with
      | [x], [] =>
          match asIntValue x with
          | some n => pure (Value.vlist (intRangeList 0 n))
          | none => throwM (Err.hostError "TypeError" "range expects integers")
      | [x, y], [] =>
          match asIntValue x, asIntValue y with
          | some a, some b => pure (Value.vlist (intRangeList a b))
          | _, _ => throwM (Err.hostError "TypeError" "range expects integers")
      | _, _ => throwM (Err.hostError "TypeError" "this range form is outside the modelled fragment")
  | .lenTool =>
      match args with
      | [.vstr s] => pure (.vint s.length)
      | [.vtuple vs] => pure (.vint vs.length)
      | [.vlist vs] => pure (.vint vs.length)
      | [.vref a] => do
          let o ← heapGet a
          match o with
          | .dict d => pure (.vint d.length)
          | .printBuf s => pure (.vint s.length)
      | [.vprint a] => do
          let o ← heapGet a
          match o with
          | .printBuf s => pure (.vint s.length)
          | .dict d => pure (.vint d.length)
      | _ => throwM (Err.hostError "TypeError" "object has no len()")
  | .divmodTool =>
      match args with
      | [x, y] =>
          match asIntValue x, asIntValue y with
          | some a, some b =>
              if b = 0 then throwM (Err.hostError "ZeroDivisionError" "integer division or modulo by zero")
              else pure (.vtuple [.vint (Int.fdiv a b), .vint (Int.fmod a b)])
          | _, _ => throwM (Err.hostError "TypeError" "divmod expects integers")
      | _ => throwM (Err.hostError "TypeError" "divmod expected 2 arguments")
  | .customTool _ => pure Value.vnone
  | .finalAnswerWrapped => throwM (Err.finalAnswer (args.headD Value.vnone))

/-- The Python class of a value, as a type object (used by the
`__class__` binding of lines 402-405). -/
def classOf : Value → Value
  | .vint _ => .vtype "int"
  | .vbool _ => .vtype "bool"
  | .vstr _ => .vtype "str"
  | .vnone => .vtype "NoneType"
  | .vtuple _ => .vtype "tuple"
  | .vlist _ => .vtype "list"
  | .vref _ => .vtype "dict"
  | .vprint _ => .vtype "PrintContainer"
  | .vclosure _ _ _ _ _ _ _ => .vtype "function"
  | .vtool _ => .vtype "function"
  | .vtype _ => .vtype "type"
  | .vexc n _ => .vtype n

/-! ## The resource governor's step check (lines 185-189) -/

def maxOperationsMessage (maxOps : Nat) : String :=
  "Reached the max number of operations of " ++ toString maxOps ++
  ". Maybe there is an infinite loop somewhere in the code, or you're just asking too many calculations."

def maxIterationsMessage (maxIter : Nat) : String :=
  "Maximum number of " ++ toString maxIter ++ " iterations in While loop exceeded"

/-- Lines 185-189: `state.setdefault("_operations_count", ...)` followed
by the ceiling check and the in-place increment of the counter dict.  The
counter is an ordinary `state` entry: if the program rebound it, the
rebound value is the one consulted here, and a rebound non-dict value
makes the subscript raise a host `TypeError`, exactly as in the source.
When the entry is absent, `setdefault` first installs a fresh counter
dict; the check and increment then run against it. -/
def opsCheckIncrement (cfg : Config) (scope : Nat) : M Unit := fun σ =>
  match alookup σ.scopes scope with
  | none => (Except.error (Err.hostError "KeyError" "missing scope"), σ)
  | some m =>
    match alookup m "_operations_count" with
    | none =>
        let a := σ.nextHeap
        let σ₁ := InterpState.mk
          (aset σ.scopes scope (aset m "_operations_count" (Value.vref a)))
          ((a, Obj.dict [("counter", Value.vint 0)]) :: σ.heap)
          σ.nextScope (σ.nextHeap + 1)
        if (0 : Int) ≥ (cfg.maxOperations : Int) then
          (Except.error (Err.interpreterError (maxOperationsMessage cfg.maxOperations)), σ₁)
        else
          (Except.ok (),
            InterpState.mk σ₁.scopes
              (aset σ₁.heap a (Obj.dict [("counter", Value.vint 1)]))
              σ₁.nextScope σ₁.nextHeap)
    | some (Value.vref a) =>
        match alookup σ.heap a with
        | some (Obj.dict d) =>
            match alookup d "counter" with
            | some (Value.vint c) =>
                if c ≥ (cfg.maxOperations : Int) then
                  (Except.error (Err.interpreterError (maxOperationsMessage cfg.maxOperations)), σ)
                else
                  (Except.ok (),
                    InterpState.mk σ.scopes
                      (aset σ.heap a (Obj.dict (aset d "counter" (Value.vint (c + 1)))))
                      σ.nextScope σ.nextHeap)
            | some _ => (Except.error (Err.hostError "TypeError" "unsupported operand type for counter"), σ)
            | none => (Except.error (Err.hostError "KeyError" "counter"), σ)
        | some (Obj.printBuf _) => (Except.error (Err.hostError "TypeError" "object is not subscriptable"), σ)
        | none => (Except.error (Err.hostError "KeyError" "missing object"), σ)
    | some _ => (Except.error (Err.hostError "TypeError" "object is not subscriptable"), σ)

/-! ## Assignment-target binding -/

/-- Elementwise binding of a tuple target's elements (lines 309-313 and
343-347): each element must itself be a `Name`; no tool-registry check is
performed here. -/
def bindElems : List Ast → List Value → Nat → M Unit
  | [], _, _ => pure ()
  | e :: es, vs, scope =>
      match e, vs with
      | .name nid, w :: ws => do
          scopeSet scope nid w
          bindElems es ws scope
      | .name _, [] => pure ()
      | other, _ =>
          throwM (Err.interpreterError ("Unsupported assignment target: " ++ astClassName other))

/-- The tuple-target branch shared verbatim by `ast.Assign` (lines
301-313) and `ast.For` (lines 335-347): convert the value to a tuple
(rejecting strings and non-iterables), require exactly matching arity,
then bind the elements positionally. -/
def unpackBind (elts : List Ast) (v : Value) (scope : Nat) : M Unit := do
  let vs ← unpackValues v
  if elts.length ≠ vs.length then
    throwM (Err.interpreterError "Cannot unpack tuple of wrong size")
  else
    bindElems elts vs scope

/-- Outcome of one loop iteration's body: ran to the end (or was cut
short by a `Continue`), or was aborted by a `Break`; carries the `result`
accumulator of the `ast.For` case. -/
inductive LoopSig where
  | ranThrough (result : Value)
  | brokeOut (result : Value)

/-! ## The evaluator (`evaluate_ast`, lines 161-417)

The recursive evaluator is embedded as a fuel-indexed bundle of mutually
recursive functions: `evalFnsAt cfg fuel` is built by structural recursion
on `fuel`, with every recursive call going through the bundle one fuel
level down, so the whole interpreter is kernel-evaluable.  The named
entry points (`evaluate_ast` and its helpers) below project out of the
bundle. -/

/-- The signatures of the evaluator's mutually recursive components.
Besides `evalAst` itself these are the source's inner loops: comparison
chains, BoolOp short-circuiting, argument-list evaluation, callable
application, `new_func` invocation, statement sequences, assignment
targets, For-loop elements, loop bodies with their Break/Continue
handlers, and the While loop. -/
structure EvalFns where
  evalAst : Ast → Nat → List (String × Value) → List String → M Value
  cmpChain : List (CmpKind × Ast) → Value → Bool → Bool → Nat →
    List (String × Value) → List String → M Value
  boolAnd : List Ast → Nat → List (String × Value) → List String → M Value
  boolOr : List Ast → Nat → List (String × Value) → List String → M Value
  astList : List Ast → Nat → List (String × Value) → List String → M (List Value)
  kwList : List (String × Ast) → Nat → List (String × Value) → List String →
    M (List (String × Value))
  callable : Value → List Value → List (String × Value) →
    List (String × Value) → List String → M Value
  closureCall : String → List String → List Ast → Option String → Option String →
    List Ast → Nat → List Value → List (String × Value) →
    List (String × Value) → List String → M Value
  stmtsLast : List Ast → Nat → List (String × Value) → List String → M (Option Value)
  assignTs : List Ast → Value → Nat → List (String × Value) → M Unit
  forElems : Ast → List Value → List Ast → Value → Nat →
    List (String × Value) → List String → M Value
  loopBody : List Ast → Value → Nat → List (String × Value) → List String → M LoopSig
  whileLoop : Nat → Ast → List Ast → Nat → List (String × Value) → List String → M Value

/-- The fuel-exhausted bundle: every component reports the embedding
artifact `outOfFuel`. -/
def fuelZeroFns : EvalFns :=
  EvalFns.mk
    (fun _ _ _ _ => throwM Err.outOfFuel)
    (fun _ _ _ _ _ _ _ => throwM Err.outOfFuel)
    (fun _ _ _ _ => throwM Err.outOfFuel)
    (fun _ _ _ _ => throwM Err.outOfFuel)
    (fun _ _ _ _ => throwM Err.outOfFuel)
    (fun _ _ _ _ => throwM Err.outOfFuel)
    (fun _ _ _ _ _ => throwM Err.outOfFuel)
    (fun _ _ _ _ _ _ _ _ _ _ _ => throwM Err.outOfFuel)
    (fun _ _ _ _ => throwM Err.outOfFuel)
    (fun _ _ _ _ => throwM Err.outOfFuel)
    (fun _ _ _ _ _ _ _ => throwM Err.outOfFuel)
    (fun _ _ _ _ _ => throwM Err.outOfFuel)
    (fun _ _ _ _ _ _ => throwM Err.outOfFuel)

/-- One fuel level of the evaluator: the bodies of `evaluate_ast` (lines
161-417) and its inner loops, with recursive occurrences replaced by the
one-level-down bundle `rec`. -/
def evalStepFns (cfg : Config) (rec : EvalFns) : EvalFns where
  /- `evaluate_ast` (lines 161-417): the resource-governor check, then
  dispatch on the node kind.  Unsupported kinds — among them `ast.Tuple`
  in expression position and `ast.Import`, for which no case exists —
  reach the else branch of line 417.  The `ast.FunctionDef` case returns
  the closure without binding the function's name into state, exactly as
  the source does. -/
  evalAst := fun expression scope static_tools authorized_imports => do
    opsCheckIncrement cfg scope
    match expression with
    | .constant c => pure (constToValue c)
    | .name vid => do
        let m ← getScope scope
        match alookup m vid with
        | some v => pure v
        | none =>
            match alookup static_tools vid with
            | some v => pure v
            | none =>
                if vid ∈ ERRORS_names then pure (Value.vtype vid)
                else throwM (Err.interpreterError ("The variable `" ++ vid ++ "` is not defined."))
    | .binop op lhs rhs => do
        let lv ← rec.evalAst lhs scope static_tools authorized_imports
        let rv ← rec.evalAst rhs scope static_tools authorized_imports
        applyBinOp op lv rv
    | .unaryop op operand => do
        let v ← rec.evalAst operand scope static_tools authorized_imports
        applyUnaryOp op v
    | .compare left rest => do
        let lv ← rec.evalAst left scope static_tools authorized_imports
        rec.cmpChain rest lv true true scope static_tools authorized_imports
    | .boolop isAnd vals =>
        if isAnd then rec.boolAnd vals scope static_tools authorized_imports
        else rec.boolOr vals scope static_tools authorized_imports
    | .call func args keywords => do
        let fv ← rec.evalAst func scope static_tools authorized_imports
        let argvs ← rec.astList args scope static_tools authorized_imports
        let kwvs ← rec.kwList keywords scope static_tools authorized_imports
        rec.callable fv argvs kwvs static_tools authorized_imports
    | .assign targets value => do
        let v ← rec.evalAst value scope static_tools authorized_imports
        rec.assignTs targets v scope static_tools
        pure v
    | .exprStmt value => rec.evalAst value scope static_tools authorized_imports
    | .ifStmt test body orelse => do
        let tv ← rec.evalAst test scope static_tools authorized_imports
        let tb ← pyTruthy tv
        if tb then do
          let r ← rec.stmtsLast body scope static_tools authorized_imports
          match r with
          | some v => pure v
          | none => throwM (Err.hostError "UnboundLocalError" "local variable referenced before assignment")
        else do
          let r ← rec.stmtsLast orelse scope static_tools authorized_imports
          pure (r.getD Value.vnone)
    | .forStmt target iter body => do
        let itv ← rec.evalAst iter scope static_tools authorized_imports
        let elems ← getIterList itv
        rec.forElems target elems body Value.vnone scope static_tools authorized_imports
    | .whileStmt test body =>
        rec.whileLoop 0 test body scope static_tools authorized_imports
    | .breakStmt => throwM Err.breakSignal
    | .continueStmt => throwM Err.continueSignal
    | .returnStmt v? =>
        match v? with
        | some ve => do
            let rv ← rec.evalAst ve scope static_tools authorized_imports
            throwM (Err.returnSignal rv)
        | none => throwM (Err.returnSignal Value.vnone)
    | .functionDef fname args defaults vararg kwarg body =>
        pure (Value.vclosure fname args defaults vararg kwarg body scope)
    | .tupleExpr _ => throwM (Err.interpreterError "Tuple is not supported.")
    | .importStmt _ _ => throwM (Err.interpreterError "Import is not supported.")
    | .otherNode cn => throwM (Err.interpreterError (cn ++ " is not supported."))
  /- The chained-comparison loop of lines 244-274: evaluate comparators
  left to right, short-circuit on the first false link, carry the running
  conjunction. -/
  cmpChain := fun rest left isFirst result scope static_tools authorized_imports =>
    match rest with
    | [] => pure (Value.vbool result)
    | (op, comparator) :: chain => do
        let right ← rec.evalAst comparator scope static_tools authorized_imports
        let current ← applyCmpOp op left right
        if current then
          rec.cmpChain chain right false (if isFirst then current else (result && current))
            scope static_tools authorized_imports
        else pure (Value.vbool false)
  /- `ast.BoolOp` with `ast.And` (lines 276-280): short-circuits on the
  first falsy operand, returning the literal booleans False/True. -/
  boolAnd := fun vals scope static_tools authorized_imports =>
    match vals with
    | [] => pure (Value.vbool true)
    | v :: rest => do
        let x ← rec.evalAst v scope static_tools authorized_imports
        let t ← pyTruthy x
        if t then rec.boolAnd rest scope static_tools authorized_imports
        else pure (Value.vbool false)
  /- `ast.BoolOp` with `ast.Or` (lines 281-285). -/
  boolOr := fun vals scope static_tools authorized_imports =>
    match vals with
    | [] => pure (Value.vbool false)
    | v :: rest => do
        let x ← rec.evalAst v scope static_tools authorized_imports
        let t ← pyTruthy x
        if t then pure (Value.vbool true)
        else rec.boolOr rest scope static_tools authorized_imports
  /- Left-to-right evaluation of a list of expressions (call arguments,
  line 288; function defaults, lines 384-387). -/
  astList := fun es scope static_tools authorized_imports =>
    match es with
    | [] => pure []
    | e :: rest => do
        let v ← rec.evalAst e scope static_tools authorized_imports
        let vs ← rec.astList rest scope static_tools authorized_imports
        pure (v :: vs)
  /- Evaluation of keyword arguments (lines 289-292). -/
  kwList := fun kws scope static_tools authorized_imports =>
    match kws with
    | [] => pure []
    | (k, e) :: rest => do
        let v ← rec.evalAst e scope static_tools authorized_imports
        let vs ← rec.kwList rest scope static_tools authorized_imports
        pure ((k, v) :: vs)
  /- `func(*args, **kwargs)` at line 293: the callee may be a tool, a
  user-defined closure, or an `ERRORS` class (constructing an exception
  instance); anything else raises `TypeError`. -/
  callable := fun fv args kwargs static_tools authorized_imports =>
    match fv with
    | .vtool t => applyTool t args kwargs
    | .vclosure fname fargs fdefaults fvararg fkwarg fbody defScope =>
        rec.closureCall fname fargs fdefaults fvararg fkwarg fbody defScope
          args kwargs static_tools authorized_imports
    | .vtype n => pure (Value.vexc n args)
    | _ => throwM (Err.hostError "TypeError" "object is not callable")
  /- `new_func` (lines 381-414): copy the defining scope's current
  contents (`func_state = state.copy()`, a call-time snapshot), evaluate
  the parameter defaults in the defining scope, bind positional then
  keyword arguments, the variadic tuple (all positional arguments, line
  395), the keyword-variadic dict, fill missing defaults, handle the
  `self` idiom, run the body in a freshly allocated scope catching a
  Return signal, and force the result to None when the function's name is
  `__init__`. -/
  closureCall := fun fname argNames defaults vararg kwarg body defScope
      args kwargs static_tools authorized_imports => do
    let snapshot ← getScope defScope
    let defaultVals ← rec.astList defaults defScope static_tools authorized_imports
    let defaultsAL := List.zip (argNames.drop (argNames.length - defaultVals.length)) defaultVals
    let fs1 := (List.zip argNames args).foldl (fun m p => aset m p.1 p.2) snapshot
    let fs2 := kwargs.foldl (fun m p => aset m p.1 p.2) fs1
    let fs3 := match vararg with
      | some vn => aset fs2 vn (Value.vtuple args)
      | none => fs2
    let fs4 ← match kwarg with
      | some kn => do
          let a ← heapAlloc (Obj.dict kwargs)
          pure (aset fs3 kn (Value.vref a))
      | none => pure fs3
    let fs5 := defaultsAL.foldl
      (fun m p => if (alookup m p.1).isSome then m else aset m p.1 p.2) fs4
    let fs6 := match argNames, args with
      | a0 :: _, s0 :: _ =>
          if a0 = "self" then aset (aset fs5 "self" s0) "__class__" (classOf s0) else fs5
      | _, _ => fs5
    let funcScope ← allocScope fs6
    let result ← catchM
      (do
        let r ← rec.stmtsLast body funcScope static_tools authorized_imports
        pure (r.getD Value.vnone))
      (fun e => match e with
        | .returnSignal v => pure v
        | e' => throwM e')
    if fname = "__init__" then pure Value.vnone else pure result
  /- Sequential evaluation of a statement list, returning the last
  statement's value (`none` for an empty list, mirroring Python's
  `result` variable staying unbound or at its initialiser). -/
  stmtsLast := fun stmts scope static_tools authorized_imports =>
    match stmts with
    | [] => pure none
    | s :: rest => do
        let v ← rec.evalAst s scope static_tools authorized_imports
        match rest with
        | [] => pure (some v)
        | _ => rec.stmtsLast rest scope static_tools authorized_imports
  /- The target loop of the `ast.Assign` case (lines 296-315): a `Name`
  target is refused with the tool-shadowing error when the name is in
  `static_tools`; a `Tuple` target unpacks without any such check; any
  other target kind is unsupported. -/
  assignTs := fun targets v scope static_tools =>
    match targets with
    | [] => pure ()
    | t :: rest => do
        match t with
        | .name tid =>
            if (alookup static_tools tid).isSome then
              throwM (Err.interpreterError
                ("Cannot assign to name '" ++ tid ++ "': doing this would erase the existing tool!"))
            else scopeSet scope tid v
        | .tupleExpr elts => unpackBind elts v scope
        | other => throwM (Err.interpreterError ("Unsupported assignment target: " ++ astClassName other))
        rec.assignTs rest v scope static_tools
  /- The per-element loop of the `ast.For` case (lines 332-357): bind the
  target (no tool-registry check, same unpack rule as Assign), then run
  the body; Break aborts the whole loop returning the result accumulated
  so far, Continue cuts the current iteration short. -/
  forElems := fun target elems body result scope static_tools authorized_imports =>
    match elems with
    | [] => pure result
    | v :: rest => do
        match target with
        | .name tid => scopeSet scope tid v
        | .tupleExpr elts => unpackBind elts v scope
        | other => throwM (Err.interpreterError ("Unsupported assignment target: " ++ astClassName other))
        let out ← rec.loopBody body result scope static_tools authorized_imports
        match out with
        | .brokeOut r => pure r
        | .ranThrough r => rec.forElems target rest body r scope static_tools authorized_imports
  /- One iteration's body with the per-statement `try/except` of lines
  350-356 (and 361-367): Break aborts with the result accumulated before
  the raising statement, Continue skips the remaining statements. -/
  loopBody := fun stmts result scope static_tools authorized_imports =>
    match stmts with
    | [] => pure (LoopSig.ranThrough result)
    | s :: rest =>
        catchM
          (do
            let v ← rec.evalAst s scope static_tools authorized_imports
            rec.loopBody rest v scope static_tools authorized_imports)
          (fun e => match e with
            | .breakSignal => pure (LoopSig.brokeOut result)
            | .continueSignal => pure (LoopSig.ranThrough result)
            | e' => throwM e')
  /- The `ast.While` loop (lines 358-371): re-evaluate the test each
  round; a Break returns None immediately; after each completed body the
  loop's own iteration counter is incremented and checked against the
  While ceiling, raising `InterpreterError` once `iterations` exceeds it.
  The body discards statement results (line 363). -/
  whileLoop := fun iterations test body scope static_tools authorized_imports => do
    let tv ← rec.evalAst test scope static_tools authorized_imports
    let tb ← pyTruthy tv
    if tb then do
      let out ← rec.loopBody body Value.vnone scope static_tools authorized_imports
      match out with
      | .brokeOut _ => pure Value.vnone
      | .ranThrough _ =>
          if iterations + 1 > cfg.maxWhileIterations then
            throwM (Err.interpreterError (maxIterationsMessage cfg.maxWhileIterations))
          else rec.whileLoop (iterations + 1) test body scope static_tools authorized_imports
    else pure Value.vnone

/-- The evaluator bundle at a given fuel level (structural recursion on
the fuel, so the interpreter computes by reduction). -/
def evalFnsAt (cfg : Config) : Nat → EvalFns
  | 0 => fuelZeroFns
  | fuel + 1 => evalStepFns cfg (evalFnsAt cfg fuel)

/-- `evaluate_ast` (lines 161-417), the evaluator's entry point: evaluate
one syntax node against the scope at address `scope`, the tool registry
and the authorized imports. -/
def evaluate_ast (cfg : Config) (fuel : Nat) (expression : Ast) (scope : Nat)
    (static_tools : List (String × Value)) (authorized_imports : List String) : M Value :=
  (evalFnsAt cfg fuel).evalAst expression scope static_tools authorized_imports

/-- Entry point for the For-element loop (used to state loop bounds). -/
def evalForElems (cfg : Config) (fuel : Nat) (target : Ast) (elems : List Value)
    (body : List Ast) (result : Value) (scope : Nat)
    (static_tools : List (String × Value)) (authorized_imports : List String) : M Value :=
  (evalFnsAt cfg fuel).forElems target elems body result scope static_tools authorized_imports

/-- Entry point for the While loop (used to state iteration bounds). -/
def evalWhileLoop (cfg : Config) (fuel : Nat) (iterations : Nat) (test : Ast)
    (body : List Ast) (scope : Nat)
    (static_tools : List (String × Value)) (authorized_imports : List String) : M Value :=
  (evalFnsAt cfg fuel).whileLoop iterations test body scope static_tools authorized_imports

/-- Entry point for the Assign-target loop (used to state the
tool-shadowing claims). -/
def assignTargets (cfg : Config) (fuel : Nat) (targets : List Ast) (v : Value)
    (scope : Nat) (static_tools : List (String × Value)) : M Unit :=
  (evalFnsAt cfg fuel).assignTs targets v scope static_tools

/-- Entry point for `new_func` invocation (used to state the
function-call claims). -/
def callClosure (cfg : Config) (fuel : Nat) (fname : String) (argNames : List String)
    (defaults : List Ast) (vararg kwarg : Option String) (body : List Ast)
    (defScope : Nat) (args : List Value) (kwargs : List (String × Value))
    (static_tools : List (String × Value)) (authorized_imports : List String) : M Value :=
  (evalFnsAt cfg fuel).closureCall fname argNames defaults vararg kwarg body defScope
    args kwargs static_tools authorized_imports


/-! ## `evaluate_python_code` (lines 420-490) and the facade (lines 493-547) -/

def errText : Err → String
  | .interpreterError msg => msg
  | .hostError _ msg => msg
  | .breakSignal => ""
  | .continueSignal => ""
  | .returnSignal _ => ""
  | .finalAnswer _ => ""
  | .atNode _ inner => errText inner
  | .outOfFuel => ""

/-- The failure message built at lines 488-490.  The source interpolates
`ast.get_source_segment(code, node)`, the failing statement's source
text; source text is the external parser's concern, so the embedding
renders the failing statement by its node class name. -/
def codeExecutionFailedMessage (node : Ast) (e : Err) : String :=
  "Code execution failed at line '" ++ astClassName node ++ "' due to: " ++
    errClassName e ++ ": " ++ errText e

/-- The statement loop of lines 471-472.  Each top-level statement
evaluates in scope 0 (the session state); an exception escaping a
statement is annotated with that statement — the `node` loop variable
that the handler of line 489 reads — except `FinalAnswerException`,
which line 478 catches as itself, and the fuel artifact. -/
def runTopStmts (cfg : Config) (fuel : Nat) (stmts : List Ast)
    (static_tools : List (String × Value)) (authorized_imports : List String) : M (Option Value) :=
  match stmts with
  | [] => pure none
  | s :: rest => do
      let v ← catchM (evaluate_ast cfg fuel s 0 static_tools authorized_imports)
        (fun e => match e with
          | .finalAnswer w => throwM (.finalAnswer w)
          | .outOfFuel => throwM .outOfFuel
          | e' => throwM (.atNode s e'))
      match rest with
      | [] => pure (some v)
      | _ => runTopStmts cfg fuel rest static_tools authorized_imports

/-- Lines 473-475 (and their copies at 479-481, 485-487):
`state["_print_outputs"].value = truncate_content(str(...), max_length)`.
A program that rebound `_print_outputs` to a non-PrintContainer value
makes the attribute assignment raise, as in the source. -/
def truncatePrintOutputs (max_length : Nat) : M Unit := do
  let m ← getScope 0
  match alookup m "_print_outputs" with
  | some (.vprint a) => do
      let o ← heapGet a
      match o with
      | .printBuf s => heapSet a (Obj.printBuf (truncate_content s max_length))
      | .dict _ => throwM (Err.hostError "AttributeError" "object has no attribute value")
  | some _ => throwM (Err.hostError "AttributeError" "object has no attribute value")
  | none => throwM (Err.hostError "KeyError" "_print_outputs")

/-- Lines 462-468: when the host registered a `final_answer` tool, it is
replaced by a wrapper that raises `FinalAnswerException`. -/
def wrapFinalAnswer (static_tools : List (String × Value)) : List (String × Value) :=
  match alookup static_tools "final_answer" with
  | some _ => aset static_tools "final_answer" (Value.vtool Tool.finalAnswerWrapped)
  | none => static_tools

/-- Lines 459-460: install a fresh `PrintContainer` and a fresh
operations counter into the session state at the start of every call —
the two Resource Governor entries are reset per call while the rest of
the state persists. -/
def installCallState : M Unit := do
  let pa ← heapAlloc (Obj.printBuf "")
  scopeSet 0 "_print_outputs" (Value.vprint pa)
  let oa ← heapAlloc (Obj.dict [("counter", Value.vint 0)])
  scopeSet 0 "_operations_count" (Value.vref oa)

/-- `evaluate_python_code` (lines 420-490), taking the already-parsed
statement list (the source-text parser is the external collaborator).
The session state is scope 0 of the threaded `InterpState`; the fresh
`PrintContainer` and operations counter are installed into it before the
body runs, so State bindings other than these two persist from earlier
calls.  On success the result pair is `(last statement's value, False)`;
a `FinalAnswerException` yields `(payload, True)`; every other failure is
re-raised as `InterpreterError` with the failing statement and the
underlying error kind, after the log buffer is truncated — the state
mutations made before the failure stay committed. -/
def evaluate_python_code (cfg : Config) (fuel : Nat) (body : List Ast)
    (static_tools? : Option (List (String × Value)))
    (authorized_imports : List String)
    (max_print_outputs_length : Nat) : M (Value × Bool) := do
  let static_tools := wrapFinalAnswer (static_tools?.getD [])
  installCallState
  catchM
    (do
      let r ← runTopStmts cfg fuel body static_tools authorized_imports
      truncatePrintOutputs max_print_outputs_length
      match r with
      | some v => pure (v, false)
      | none =>
          throwM (Err.hostError "UnboundLocalError"
            "local variable result referenced before assignment"))
    (fun e =>
      match e with
      | .finalAnswer v => do
          truncatePrintOutputs max_print_outputs_length
          pure (v, true)
      | .atNode n e' => do
          truncatePrintOutputs max_print_outputs_length
          throwM (Err.interpreterError (codeExecutionFailedMessage n e'))
      | e' => throwM e')

/-- The executor facade (lines 493-547).  The session `state` dict is
scope 0 of the carried world.  `static_tools` is set to None at
construction (line 516) and the class offers no registration operation,
so calls run with an empty tool registry unless the host mutates the
attribute directly — the field is kept so that theorems can quantify
over host-supplied registries. -/
structure LocalPythonExecutor where
  world : InterpState
  max_print_outputs_length : Nat
  additional_authorized_imports : List String
  authorized_imports : List String
  static_tools : Option (List (String × Value))

/-- The world of a freshly constructed executor: an empty session state
(scope 0) and an empty object heap. -/
def initialWorld : InterpState := InterpState.mk [(0, [])] [] 1 0

/-- `LocalPythonExecutor.__init__` (lines 496-516).
`list(set(BASE_BUILTIN_MODULES) | set(additional))` is modelled as the
deduplicating concatenation: the Python expression's element order is
unspecified, and only membership in the list is ever consulted. -/
def LocalPythonExecutor.init (additional_authorized_imports : List String)
    (max_print_outputs_length : Option Nat) : LocalPythonExecutor :=
  LocalPythonExecutor.mk initialWorld
    (max_print_outputs_length.getD DEFAULT_MAX_LEN_OUTPUT)
    additional_authorized_imports
    ((BASE_BUILTIN_MODULES ++ additional_authorized_imports).dedup)
    none

/-- `str(self.state["_print_outputs"])` (line 536). -/
def logsOfState (σ : InterpState) : String :=
  match alookup σ.scopes 0 with
  | some m =>
      match alookup m "_print_outputs" with
      | some (.vprint a) =>
          match alookup σ.heap a with
          | some (.printBuf s) => s
          | _ => ""
      | _ => ""
  | none => ""

/-- `LocalPythonExecutor.__call__` (lines 518-537): run the code against
the persistent state; on success return `(output, logs, is_final_answer)`
with the logs read back from the state's print buffer; on failure the
interpreter error propagates and the executor keeps the mutated state. -/
def LocalPythonExecutor.call (ex : LocalPythonExecutor) (cfg : Config) (fuel : Nat)
    (code_action : List Ast) : Except Err (Value × String × Bool) × LocalPythonExecutor :=
  match evaluate_python_code cfg fuel code_action ex.static_tools ex.authorized_imports
      ex.max_print_outputs_length ex.world with
  | (Except.ok (output, is_final_answer), σ) =>
      (Except.ok (output, logsOfState σ, is_final_answer),
        LocalPythonExecutor.mk σ ex.max_print_outputs_length
          ex.additional_authorized_imports ex.authorized_imports ex.static_tools)
  | (Except.error e, σ) =>
      (Except.error e,
        LocalPythonExecutor.mk σ ex.max_print_outputs_length
          ex.additional_authorized_imports ex.authorized_imports ex.static_tools)

/-- `send_variables` (lines 539-547): `self.state.update(variables)`. -/
def LocalPythonExecutor.send_variables (ex : LocalPythonExecutor)
    (vars : List (String × Value)) : LocalPythonExecutor :=
  match alookup ex.world.scopes 0 with
  | some m =>
      LocalPythonExecutor.mk
        (InterpState.mk
          (aset ex.world.scopes 0 (vars.foldl (fun mm p => aset mm p.1 p.2) m))
          ex.world.heap ex.world.nextScope ex.world.nextHeap)
        ex.max_print_outputs_length ex.additional_authorized_imports
        ex.authorized_imports ex.static_tools
  | none => ex

/-- The literal session world after a fresh executor ran
`a = 1`: the persistent scope 0 holds the print buffer, the
operations-counter reference (its dict incremented twice: once for the
Assign node, once for the Constant), and the binding `a = 1`. -/
def sessionAfterAssign : LocalPythonExecutor :=
  LocalPythonExecutor.mk
    (InterpState.mk
      [(0, [("_print_outputs", Value.vprint 0), ("_operations_count", Value.vref 1),
            ("a", Value.vint 1)])]
      [(1, Obj.dict [("counter", Value.vint 2)]), (0, Obj.printBuf "")] 1 2)
    DEFAULT_MAX_LEN_OUTPUT [] ((BASE_BUILTIN_MODULES ++ []).dedup) none

/-- A session world holding a host-injected counter dict `d` (heap cell
2), used to demonstrate that rebinding `_operations_count` resets the
remaining step budget. -/
def worldWithCounterDict : InterpState :=
  InterpState.mk [(0, [("d", Value.vref 2)])]
    [(2, Obj.dict [("counter", Value.vint 0)])] 1 3

/-- `0` ; `_operations_count = d` ; `0`. -/
def budgetProgReset : List Ast :=
  [Ast.exprStmt (Ast.constant (Const.cint 0)),
   Ast.assign [Ast.name "_operations_count"] (Ast.name "d"),
   Ast.exprStmt (Ast.constant (Const.cint 0))]

/-- `0` ; `d` ; `0` — the same node count and costs, without rebinding
the counter. -/
def budgetProgNoReset : List Ast :=
  [Ast.exprStmt (Ast.constant (Const.cint 0)),
   Ast.exprStmt (Ast.name "d"),
   Ast.exprStmt (Ast.constant (Const.cint 0))]

/-- A configuration with a While-iteration ceiling of 2, to exhibit the
iteration-limit behaviour concretely. -/
def smallWhileCfg : Config := Config.mk 100 2

/-- The body `i = i + 1`. -/
def incrBody : List Ast :=
  [Ast.assign [Ast.name "i"] (Ast.binop BinOpKind.add (Ast.name "i") (Ast.constant (Const.cint 1)))]

/-- A session state with `i = 0` and a fresh counter. -/
def iZeroState : InterpState :=
  InterpState.mk [(0, [("i", Value.vint 0), ("_operations_count", Value.vref 0)])]
    [(0, Obj.dict [("counter", Value.vint 0)])] 1 1

/-- A small session state with a well-formed operations counter at zero,
used to witness evaluator-level theorems at a concrete input. -/
def counterOnlyState : InterpState :=
  InterpState.mk [(0, [("_operations_count", Value.vref 0)])]
    [(0, Obj.dict [("counter", Value.vint 0)])] 1 1

/-- The function body `y = 5; return x`: one write to a local name and a
read of a free name, exercising the call-time snapshot, the Return
signal, and the isolation of the caller's scope in one call. -/
def funcBodyC9 : List Ast :=
  [Ast.assign [Ast.name "y"] (Ast.constant (Const.cint 5)),
   Ast.returnStmt (some (Ast.name "x"))]

/-- A caller scope for the function-call lemmas: a counter reference and
`x = 10`. -/
def mC9 : List (String × Value) :=
  [("_operations_count", Value.vref 7), ("x", Value.vint 10)]

/-- A session state whose scope 0 is `mC9`, with the counter dict at heap
address 7 holding zero. -/
def sC9 : InterpState :=
  InterpState.mk [(0, mC9)] [(7, Obj.dict [("counter", Value.vint 0)])] 1 8

/-! # Theorems -/

/-! ## Basic lemmas about the map and monad primitives -/

theorem alookup_aset_self {κ α : Type} [DecidableEq κ]
    (l : List (κ × α)) (k : κ) (v : α) : alookup (aset l k v) k = some v := by
  induction l with
  | nil => simp [alookup, aset]
  | cons hd tl ih =>
      obtain ⟨k', v'⟩ := hd
      by_cases h : k' = k <;> simp [alookup, aset, h, ih]

theorem alookup_aset_other {κ α : Type} [DecidableEq κ]
    (l : List (κ × α)) (k k' : κ) (v : α) (h : k ≠ k') :
    alookup (aset l k v) k' = alookup l k' := by
  induction l with
  | nil => simp [alookup, aset, h]
  | cons hd tl ih =>
      obtain ⟨k₀, v₀⟩ := hd
      by_cases h₀ : k₀ = k
      · subst h₀
        simp [alookup, aset, h]
      · simp only [aset, if_neg h₀, alookup]
        by_cases h₁ : k₀ = k' <;> simp [h₁, ih]

theorem aupdate_of_alookup {κ α : Type} [DecidableEq κ]
    (l : List (κ × α)) (k : κ) (v : α) (f : α → α) (h : alookup l k = some v) :
    aupdate l k f = some (aset l k (f v)) := by
  induction l with
  | nil => simp [alookup] at h
  | cons hd tl ih =>
      obtain ⟨k₀, v₀⟩ := hd
      by_cases h₀ : k₀ = k
      · subst h₀
        simp [alookup] at h
        simp [aupdate, aset, h]
      · simp [alookup, h₀] at h
        simp [aupdate, aset, h₀, ih h]

theorem bind_def {α β : Type} (x : M α) (f : α → M β) (σ : InterpState) :
    (x >>= f) σ = match x σ with
      | (Except.ok a, σ') => f a σ'
      | (Except.error e, σ') => (Except.error e, σ') := rfl

theorem installCallState_eq (σ : InterpState) (m : List (String × Value))
    (h : alookup σ.scopes 0 = some m) :
    installCallState σ =
      (Except.ok (),
        InterpState.mk
          (aset (aset σ.scopes 0 (aset m "_print_outputs" (Value.vprint σ.nextHeap))) 0
            (aset (aset m "_print_outputs" (Value.vprint σ.nextHeap))
              "_operations_count" (Value.vref (σ.nextHeap + 1))))
          ((σ.nextHeap + 1, Obj.dict [("counter", Value.vint 0)]) ::
            (σ.nextHeap, Obj.printBuf "") :: σ.heap)
          σ.nextScope (σ.nextHeap + 1 + 1)) := by
  have h₁ : alookup
      (aset σ.scopes 0 (aset m "_print_outputs" (Value.vprint σ.nextHeap))) 0 =
      some (aset m "_print_outputs" (Value.vprint σ.nextHeap)) :=
    alookup_aset_self _ _ _
  simp only [installCallState, bind_def, heapAlloc, scopeSet,
    aupdate_of_alookup _ _ _ _ h, aupdate_of_alookup _ _ _ _ h₁, pure]



/-! ## One-level unfolding lemmas for the evaluator -/

theorem evalFnsAt_succ (cfg : Config) (fuel : Nat) :
    evalFnsAt cfg (fuel + 1) = evalStepFns cfg (evalFnsAt cfg fuel) := rfl

/-- Lines 185-188: once the counter has reached the ceiling, the
resource-governor check raises `InterpreterError` and leaves the state
untouched. -/
theorem opsCheck_limit (cfg : Config) (scope : Nat) (σ : InterpState)
    (m : List (String × Value)) (a : Nat) (d : List (String × Value)) (c : Int)
    (h1 : alookup σ.scopes scope = some m)
    (h2 : alookup m "_operations_count" = some (Value.vref a))
    (h3 : alookup σ.heap a = some (Obj.dict d))
    (h4 : alookup d "counter" = some (Value.vint c))
    (hc : (cfg.maxOperations : Int) ≤ c) :
    opsCheckIncrement cfg scope σ =
      (Except.error (Err.interpreterError (maxOperationsMessage cfg.maxOperations)), σ) := by
  simp [opsCheckIncrement, h1, h2, h3, h4, hc]

/-- Lines 185-189: below the ceiling, the check increments the counter
dict in place and succeeds; nothing else in the state changes. -/
theorem opsCheck_incr (cfg : Config) (scope : Nat) (σ : InterpState)
    (m : List (String × Value)) (a : Nat) (d : List (String × Value)) (c : Int)
    (h1 : alookup σ.scopes scope = some m)
    (h2 : alookup m "_operations_count" = some (Value.vref a))
    (h3 : alookup σ.heap a = some (Obj.dict d))
    (h4 : alookup d "counter" = some (Value.vint c))
    (hc : c < (cfg.maxOperations : Int)) :
    opsCheckIncrement cfg scope σ =
      (Except.ok (),
        InterpState.mk σ.scopes
          (aset σ.heap a (Obj.dict (aset d "counter" (Value.vint (c + 1)))))
          σ.nextScope σ.nextHeap) := by
  simp [opsCheckIncrement, h1, h2, h3, h4, not_le.mpr hc]

/-- When the resource-governor check fails, `evaluate_ast` fails with the
same error and state, before touching the node. -/
theorem evaluate_ast_opsFail (cfg : Config) (fuel : Nat) (e : Ast) (scope : Nat)
    (tools : List (String × Value)) (imps : List String) (σ σ' : InterpState) (er : Err)
    (h : opsCheckIncrement cfg scope σ = (Except.error er, σ')) :
    evaluate_ast cfg (fuel + 1) e scope tools imps σ = (Except.error er, σ') := by
  simp only [evaluate_ast, evalFnsAt_succ, evalStepFns, bind_def, h]

/-- `ast.Import` has no evaluator case: it reaches the else branch of
line 417 and fails with `InterpreterError("Import is not supported.")`
from the post-check state, regardless of the authorized-imports list. -/
theorem evaluate_ast_import (cfg : Config) (fuel : Nat) (modname : String)
    (asname : Option String) (scope : Nat)
    (tools : List (String × Value)) (imps : List String) (σ σ₁ : InterpState)
    (h : opsCheckIncrement cfg scope σ = (Except.ok (), σ₁)) :
    evaluate_ast cfg (fuel + 1) (Ast.importStmt modname asname) scope tools imps σ =
      (Except.error (Err.interpreterError "Import is not supported."), σ₁) := by
  simp only [evaluate_ast, evalFnsAt_succ, evalStepFns, bind_def, h, throwM]

/-! ## C2: the import gate -/

/-- C2.  The claim says an import of module `m` succeeds exactly when `m`
is in AuthorizedImports, binding the module into State, and otherwise
fails with `UnauthorizedImport`.  The code has no `ast.Import` case at
all: for every module name, every alias, and every authorized-imports
list — in particular when the module IS authorized — evaluating the
statement fails with `InterpreterError("Import is not supported.")` (the
unsupported-construct branch, line 417), and no binding whatsoever is
added to State (only the step counter advances). -/
theorem claim_C2_import_gate (cfg : Config) (fuel : Nat) (modname : String)
    (asname : Option String) (scope : Nat) (tools : List (String × Value))
    (imps : List String) (σ : InterpState)
    (m : List (String × Value)) (a : Nat) (d : List (String × Value)) (c : Int)
    (h1 : alookup σ.scopes scope = some m)
    (h2 : alookup m "_operations_count" = some (Value.vref a))
    (h3 : alookup σ.heap a = some (Obj.dict d))
    (h4 : alookup d "counter" = some (Value.vint c))
    (hc : c < (cfg.maxOperations : Int)) :
    (evaluate_ast cfg (fuel + 1) (Ast.importStmt modname asname) scope tools imps σ).1 =
        Except.error (Err.interpreterError "Import is not supported.") ∧
    ∀ k, scopeBinding
        (evaluate_ast cfg (fuel + 1) (Ast.importStmt modname asname) scope tools imps σ).2
        scope k = scopeBinding σ scope k := by
  have hstep := evaluate_ast_import cfg fuel modname asname scope tools imps σ _
    (opsCheck_incr cfg scope σ m a d c h1 h2 h3 h4 hc)
  rw [hstep]
  exact ⟨rfl, fun k => by simp [scopeBinding]⟩

/-- Witness for C2 at the claim's own failing input: `import math` with
`math` authorized (it is in the base module list), from a session state
with a fresh counter.  The import still fails with the
unsupported-construct error and binds nothing. -/
theorem claim_C2_import_gate_witness :
    "math" ∈ BASE_BUILTIN_MODULES ∧
    (evaluate_ast defaultConfig (4 + 1) (Ast.importStmt "math" none) 0 []
        BASE_BUILTIN_MODULES counterOnlyState).1 =
      Except.error (Err.interpreterError "Import is not supported.") ∧
    scopeBinding
        (evaluate_ast defaultConfig (4 + 1) (Ast.importStmt "math" none) 0 []
          BASE_BUILTIN_MODULES counterOnlyState).2 0 "math" =
      scopeBinding counterOnlyState 0 "math" := by
  have h := claim_C2_import_gate defaultConfig 4 "math" none 0 [] BASE_BUILTIN_MODULES
    counterOnlyState [("_operations_count", Value.vref 0)] 0
    [("counter", Value.vint 0)] 0 rfl rfl rfl rfl (by decide)
  exact ⟨by decide, h.1, h.2 "math"⟩

/-! ## C1: tool shadowing -/

/-- Lines 297-300: a single-name Assign target whose name is registered
in `static_tools` raises the tool-shadowing `InterpreterError` before any
binding is made — the state is returned untouched. -/
theorem assignTargets_name_tool_shadow (cfg : Config) (fuel : Nat) (tid : String)
    (rest : List Ast) (v w : Value) (scope : Nat)
    (tools : List (String × Value)) (σ : InterpState)
    (h : alookup tools tid = some w) :
    assignTargets cfg (fuel + 1) (Ast.name tid :: rest) v scope tools σ =
      (Except.error (Err.interpreterError
        ("Cannot assign to name '" ++ tid ++ "': doing this would erase the existing tool!")), σ) := by
  simp only [assignTargets, evalFnsAt_succ, evalStepFns, bind_def, h, Option.isSome_some,
    if_true, throwM]

/-- Lines 301-313: a tuple Assign target unpacks and binds positionally
with NO check against `static_tools` — here for a two-name target, with
no hypothesis at all about the tool registry. -/
theorem assignTargets_tuple_no_check (cfg : Config) (fuel : Nat) (tid₁ tid₂ : String)
    (v₁ v₂ : Value) (scope : Nat) (tools : List (String × Value)) (σ : InterpState)
    (m : List (String × Value))
    (hm : alookup σ.scopes scope = some m) (hne : tid₁ ≠ tid₂) :
    assignTargets cfg (fuel + 2) [Ast.tupleExpr [Ast.name tid₁, Ast.name tid₂]]
        (Value.vtuple [v₁, v₂]) scope tools σ =
      (Except.ok (),
        InterpState.mk
          (aset (aset σ.scopes scope (aset m tid₁ v₁)) scope (aset (aset m tid₁ v₁) tid₂ v₂))
          σ.heap σ.nextScope σ.nextHeap) ∧
    scopeBinding
        (assignTargets cfg (fuel + 2) [Ast.tupleExpr [Ast.name tid₁, Ast.name tid₂]]
          (Value.vtuple [v₁, v₂]) scope tools σ).2 scope tid₂ = some v₂ ∧
    scopeBinding
        (assignTargets cfg (fuel + 2) [Ast.tupleExpr [Ast.name tid₁, Ast.name tid₂]]
          (Value.vtuple [v₁, v₂]) scope tools σ).2 scope tid₁ = some v₁ := by
  have hm₁ : alookup (aset σ.scopes scope (aset m tid₁ v₁)) scope =
      some (aset m tid₁ v₁) := alookup_aset_self _ _ _
  have hub : unpackBind [Ast.name tid₁, Ast.name tid₂] (Value.vtuple [v₁, v₂]) scope σ =
      (Except.ok (),
        InterpState.mk
          (aset (aset σ.scopes scope (aset m tid₁ v₁)) scope (aset (aset m tid₁ v₁) tid₂ v₂))
          σ.heap σ.nextScope σ.nextHeap) := by
    simp only [unpackBind, bind_def, unpackValues, pure]
    rw [if_neg (by simp)]
    simp only [bindElems, bind_def, scopeSet, aupdate_of_alookup _ _ _ _ hm, pure]
    simp only [aupdate_of_alookup _ _ _ _ hm₁, pure]
  have hmain : assignTargets cfg (fuel + 2) [Ast.tupleExpr [Ast.name tid₁, Ast.name tid₂]]
        (Value.vtuple [v₁, v₂]) scope tools σ =
      (Except.ok (),
        InterpState.mk
          (aset (aset σ.scopes scope (aset m tid₁ v₁)) scope (aset (aset m tid₁ v₁) tid₂ v₂))
          σ.heap σ.nextScope σ.nextHeap) := by
    simp only [assignTargets, evalFnsAt_succ, evalStepFns, bind_def, hub, pure]
  refine ⟨hmain, ?_, ?_⟩
  · rw [hmain]
    simp [scopeBinding, alookup_aset_self]
  · rw [hmain]
    simp only [scopeBinding, alookup_aset_self]
    rw [alookup_aset_other _ _ _ _ (fun hh => hne hh.symm)]
    exact alookup_aset_self _ _ _

/-- Lines 332-334: the For-loop Name-target binding performs
`state[target.id] = value` with NO check against `static_tools` (for a
one-element iteration with an empty body, again with no hypothesis about
the registry). -/
theorem forElems_name_no_check (cfg : Config) (fuel : Nat) (tid : String)
    (v r : Value) (scope : Nat) (tools : List (String × Value))
    (imps : List String) (σ : InterpState) (m : List (String × Value))
    (hm : alookup σ.scopes scope = some m) :
    evalForElems cfg (fuel + 2) (Ast.name tid) [v] [] r scope tools imps σ =
      (Except.ok r,
        InterpState.mk (aset σ.scopes scope (aset m tid v)) σ.heap σ.nextScope σ.nextHeap) := by
  simp only [evalForElems, evalFnsAt_succ, evalStepFns, bind_def, scopeSet,
    aupdate_of_alookup _ _ _ _ hm, catchM, pure]

/-- C1.  The claim says every assignment form — single-name Assign,
tuple-unpacking Assign, and For-loop binding — refuses to bind a name
registered in the Tool Registry, failing with ToolShadowing and leaving
State without the binding.  Only the single-name Assign target is
protected (conjunct 1, which also leaves the state untouched); a
tuple-unpacking Assign target (conjunct 2) and a For-loop Name binding
(conjunct 3) bind the registered tool's name into State without any
check and succeed. -/
theorem claim_C1_tool_shadowing :
    (∀ (cfg : Config) (fuel : Nat) (tid : String) (rest : List Ast) (v w : Value)
      (scope : Nat) (tools : List (String × Value)) (σ : InterpState),
      alookup tools tid = some w →
      assignTargets cfg (fuel + 1) (Ast.name tid :: rest) v scope tools σ =
        (Except.error (Err.interpreterError
          ("Cannot assign to name '" ++ tid ++ "': doing this would erase the existing tool!")), σ)) ∧
    (∀ (cfg : Config) (fuel : Nat) (tid₁ tid₂ : String) (v₁ v₂ w : Value)
      (scope : Nat) (tools : List (String × Value)) (σ : InterpState)
      (m : List (String × Value)),
      alookup σ.scopes scope = some m → tid₁ ≠ tid₂ →
      alookup tools tid₂ = some w →
      (assignTargets cfg (fuel + 2) [Ast.tupleExpr [Ast.name tid₁, Ast.name tid₂]]
          (Value.vtuple [v₁, v₂]) scope tools σ).1 = Except.ok () ∧
      scopeBinding
        (assignTargets cfg (fuel + 2) [Ast.tupleExpr [Ast.name tid₁, Ast.name tid₂]]
          (Value.vtuple [v₁, v₂]) scope tools σ).2 scope tid₂ = some v₂) ∧
    (∀ (cfg : Config) (fuel : Nat) (tid : String) (v r w : Value) (scope : Nat)
      (tools : List (String × Value)) (imps : List String) (σ : InterpState)
      (m : List (String × Value)),
      alookup σ.scopes scope = some m →
      alookup tools tid = some w →
      (evalForElems cfg (fuel + 2) (Ast.name tid) [v] [] r scope tools imps σ).1 =
        Except.ok r ∧
      scopeBinding
        (evalForElems cfg (fuel + 2) (Ast.name tid) [v] [] r scope tools imps σ).2
        scope tid = some v) := by
  refine ⟨?_, ?_, ?_⟩
  · intro cfg fuel tid rest v w scope tools σ h
    exact assignTargets_name_tool_shadow cfg fuel tid rest v w scope tools σ h
  · intro cfg fuel tid₁ tid₂ v₁ v₂ w scope tools σ m hm hne _
    obtain ⟨h₁, h₂, _⟩ :=
      assignTargets_tuple_no_check cfg fuel tid₁ tid₂ v₁ v₂ scope tools σ m hm hne
    exact ⟨by rw [h₁], h₂⟩
  · intro cfg fuel tid v r w scope tools imps σ m hm _
    have h := forElems_name_no_check cfg fuel tid v r scope tools imps σ m hm
    refine ⟨by rw [h], ?_⟩
    rw [h]
    simp [scopeBinding, alookup_aset_self]

/-- Witness for C1 (the theorem's conjuncts at concrete inputs): with a
registered tool `helper`, the single-name assignment is refused, while
`x, helper = (3, 1)` and `for helper in (7,): ...` both bind `helper`. -/
theorem claim_C1_tool_shadowing_witness :
    (assignTargets defaultConfig 1 [Ast.name "helper"] (Value.vint 5) 0
        [("helper", Value.vtool (Tool.customTool 0))] counterOnlyState =
      (Except.error (Err.interpreterError
        "Cannot assign to name 'helper': doing this would erase the existing tool!"),
        counterOnlyState)) ∧
    scopeBinding
        (assignTargets defaultConfig 2 [Ast.tupleExpr [Ast.name "x", Ast.name "helper"]]
          (Value.vtuple [Value.vint 3, Value.vint 1]) 0
          [("helper", Value.vtool (Tool.customTool 0))] counterOnlyState).2 0 "helper" =
      some (Value.vint 1) ∧
    scopeBinding
        (evalForElems defaultConfig 2 (Ast.name "helper") [Value.vint 7] [] Value.vnone 0
          [("helper", Value.vtool (Tool.customTool 0))] [] counterOnlyState).2 0 "helper" =
      some (Value.vint 7) := by
  refine ⟨?_, ?_, ?_⟩
  · exact claim_C1_tool_shadowing.1 defaultConfig 0 "helper" [] (Value.vint 5)
      (Value.vtool (Tool.customTool 0)) 0 [("helper", Value.vtool (Tool.customTool 0))]
      counterOnlyState rfl
  · exact (claim_C1_tool_shadowing.2.1 defaultConfig 0 "x" "helper" (Value.vint 3)
      (Value.vint 1) (Value.vtool (Tool.customTool 0)) 0
      [("helper", Value.vtool (Tool.customTool 0))] counterOnlyState
      [("_operations_count", Value.vref 0)] rfl (by decide) rfl).2
  · exact (claim_C1_tool_shadowing.2.2 defaultConfig 0 "helper" (Value.vint 7)
      Value.vnone (Value.vtool (Tool.customTool 0)) 0
      [("helper", Value.vtool (Tool.customTool 0))] [] counterOnlyState
      [("_operations_count", Value.vref 0)] rfl rfl).2

/-! ## C7: tuple-unpacking assignment -/

/-- Elementwise binding over all-Name targets always succeeds when the
arities match and the scope exists, touching only the scope heap. -/
theorem bindElems_names_ok (names : List String) (vs : List Value) (scope : Nat)
    (σ : InterpState) (hlen : names.length = vs.length)
    (hsc : (alookup σ.scopes scope).isSome) :
    ∃ σ', bindElems (names.map Ast.name) vs scope σ = (Except.ok (), σ') ∧
      σ'.heap = σ.heap ∧ σ'.nextScope = σ.nextScope ∧ σ'.nextHeap = σ.nextHeap := by
  induction names generalizing vs σ with
  | nil =>
      cases vs with
      | nil => exact ⟨σ, rfl, rfl, rfl, rfl⟩
      | cons v vs' => simp at hlen
  | cons n ns ih =>
      cases vs with
      | nil => simp at hlen
      | cons v vs' =>
          obtain ⟨m, hm⟩ := Option.isSome_iff_exists.mp hsc
          have hstep : scopeSet scope n v σ =
              (Except.ok (),
                InterpState.mk (aset σ.scopes scope (aset m n v)) σ.heap σ.nextScope σ.nextHeap) := by
            simp only [scopeSet, aupdate_of_alookup _ _ _ _ hm]
          have hsc' : (alookup
              (InterpState.mk (aset σ.scopes scope (aset m n v)) σ.heap σ.nextScope
                σ.nextHeap).scopes scope).isSome := by
            simp [alookup_aset_self]
          obtain ⟨σ', h₁, h₂, h₃, h₄⟩ := ih vs' _ (by simpa using hlen) hsc'
          refine ⟨σ', ?_, h₂, h₃, h₄⟩
          simp only [List.map, bindElems, bind_def, hstep, h₁]

/-- C7.  The claim says a tuple-target assignment accepts exactly the
iterable values of matching arity.  Acceptance of tuples and lists of
matching arity holds (conjuncts 1-2), as do the arity-mismatch error
(conjunct 3) and the rejection of non-iterables (conjunct 5); but
strings, although iterable in this very evaluator (conjunct 6 — the For
loop iterates them through the same `getIterList`), are rejected by the
unpack conversion with the NotIterable error (conjunct 4), refuting the
claimed equivalence. -/
theorem claim_C7_unpack_arity :
    (∀ (names : List String) (vs : List Value) (scope : Nat) (σ : InterpState),
      names.length = vs.length → (alookup σ.scopes scope).isSome →
      ∃ σ', unpackBind (names.map Ast.name) (Value.vtuple vs) scope σ = (Except.ok (), σ')) ∧
    (∀ (names : List String) (vs : List Value) (scope : Nat) (σ : InterpState),
      names.length = vs.length → (alookup σ.scopes scope).isSome →
      ∃ σ', unpackBind (names.map Ast.name) (Value.vlist vs) scope σ = (Except.ok (), σ')) ∧
    (∀ (names : List String) (vs : List Value) (scope : Nat) (σ : InterpState),
      names.length ≠ vs.length →
      unpackBind (names.map Ast.name) (Value.vtuple vs) scope σ =
        (Except.error (Err.interpreterError "Cannot unpack tuple of wrong size"), σ)) ∧
    (∀ (s : String) (elts : List Ast) (scope : Nat) (σ : InterpState),
      unpackBind elts (Value.vstr s) scope σ =
        (Except.error (Err.interpreterError "Cannot unpack non-tuple value"), σ)) ∧
    (∀ (n : Int) (elts : List Ast) (scope : Nat) (σ : InterpState),
      unpackBind elts (Value.vint n) scope σ =
        (Except.error (Err.interpreterError "Cannot unpack non-tuple value"), σ)) ∧
    (∀ (s : String) (σ : InterpState),
      getIterList (Value.vstr s) σ =
        (Except.ok (s.data.map (fun c => Value.vstr (String.mk [c]))), σ)) := by
  refine ⟨?_, ?_, ?_, ?_, ?_, ?_⟩
  · intro names vs scope σ hlen hsc
    obtain ⟨σ', h₁, _⟩ := bindElems_names_ok names vs scope σ hlen hsc
    refine ⟨σ', ?_⟩
    simp only [unpackBind, bind_def, unpackValues, pure]
    rw [if_neg (by simpa using hlen)]
    exact h₁
  · intro names vs scope σ hlen hsc
    obtain ⟨σ', h₁, _⟩ := bindElems_names_ok names vs scope σ hlen hsc
    refine ⟨σ', ?_⟩
    simp only [unpackBind, bind_def, unpackValues, pure]
    rw [if_neg (by simpa using hlen)]
    exact h₁
  · intro names vs scope σ hlen
    simp only [unpackBind, bind_def, unpackValues, pure]
    rw [if_pos (by simpa using hlen)]
    rfl
  · intro s elts scope σ
    rfl
  · intro n elts scope σ
    rfl
  · intro s σ
    rfl

/-- Counterexample for C7 as stated: the two-character string `"xy"` is
iterable with arity 2 in this evaluator (the same `getIterList` the For
loop uses yields exactly two elements), and the target has two Name
elements, yet the tuple-target assignment rejects it with the
NotIterable error instead of unpacking it. -/
theorem claim_C7_counterexample :
    (getIterList (Value.vstr "xy") counterOnlyState).1 =
      Except.ok [Value.vstr "x", Value.vstr "y"] ∧
    [Ast.name "a", Ast.name "b"].length = 2 ∧
    unpackBind [Ast.name "a", Ast.name "b"] (Value.vstr "xy") 0 counterOnlyState =
      (Except.error (Err.interpreterError "Cannot unpack non-tuple value"),
        counterOnlyState) := ⟨rfl, rfl, rfl⟩

/-- Counterexample for C1 as stated: with the tool `helper` registered,
the tuple-unpacking assignment `x, helper = (3, 1)` does NOT fail with
ToolShadowing — it succeeds and binds `helper` to 1 in State. -/
theorem claim_C1_counterexample :
    (assignTargets defaultConfig 2 [Ast.tupleExpr [Ast.name "x", Ast.name "helper"]]
        (Value.vtuple [Value.vint 3, Value.vint 1]) 0
        [("helper", Value.vtool (Tool.customTool 0))] counterOnlyState).1 = Except.ok () ∧
    scopeBinding
        (assignTargets defaultConfig 2 [Ast.tupleExpr [Ast.name "x", Ast.name "helper"]]
          (Value.vtuple [Value.vint 3, Value.vint 1]) 0
          [("helper", Value.vtool (Tool.customTool 0))] counterOnlyState).2 0 "helper" =
      some (Value.vint 1) := by
  obtain ⟨h₁, h₂, _⟩ := assignTargets_tuple_no_check defaultConfig 0 "x" "helper"
    (Value.vint 3) (Value.vint 1) 0 [("helper", Value.vtool (Tool.customTool 0))]
    counterOnlyState [("_operations_count", Value.vref 0)] rfl (by decide)
  exact ⟨by rw [h₁], h₂⟩

/-- Witness for C7's theorem at concrete inputs: `a, b = (1, 2)`
unpacks; `a, b = (1,)` is an arity error; `a, b = "xy"` is the
NotIterable error; `"z"` iterates to its one character. -/
theorem claim_C7_unpack_arity_witness :
    (∃ σ', unpackBind [Ast.name "a", Ast.name "b"]
        (Value.vtuple [Value.vint 1, Value.vint 2]) 0 counterOnlyState =
        (Except.ok (), σ')) ∧
    unpackBind [Ast.name "a", Ast.name "b"] (Value.vtuple [Value.vint 1]) 0 counterOnlyState =
      (Except.error (Err.interpreterError "Cannot unpack tuple of wrong size"),
        counterOnlyState) ∧
    unpackBind [Ast.name "a", Ast.name "b"] (Value.vstr "xy") 0 counterOnlyState =
      (Except.error (Err.interpreterError "Cannot unpack non-tuple value"),
        counterOnlyState) ∧
    getIterList (Value.vstr "z") counterOnlyState =
      (Except.ok ["z".data.map (fun c => Value.vstr (String.mk [c]))].flatten,
        counterOnlyState) := by
  refine ⟨?_, ?_, ?_, ?_⟩
  · exact claim_C7_unpack_arity.1 ["a", "b"] [Value.vint 1, Value.vint 2] 0
      counterOnlyState rfl (by decide)
  · exact claim_C7_unpack_arity.2.2.1 ["a", "b"] [Value.vint 1] 0 counterOnlyState
      (by decide)
  · exact claim_C7_unpack_arity.2.2.2.1 "xy" [Ast.name "a", Ast.name "b"] 0 counterOnlyState
  · simpa using claim_C7_unpack_arity.2.2.2.2.2 "z" counterOnlyState

/-! ## C3: the print binding -/

/-- C3.  The claim says text printed by the built-in `print` binding is
appended to the session log buffer, never discarded.  The binding is the
stub `lambda *args: None` of line 43: applying it returns None and
leaves the whole interpreter state — including the `PrintContainer` —
untouched, for every argument list (conjunct 1); consequently a full
facade run of `print("hello")` produces result None with logs `""`
(conjunct 2), the printed text nowhere. -/
theorem claim_C3_print_discards :
    (∀ (args : List Value) (kwargs : List (String × Value)) (σ : InterpState),
      applyTool Tool.printTool args kwargs σ = (Except.ok Value.vnone, σ)) ∧
    (LocalPythonExecutor.call
        (LocalPythonExecutor.mk initialWorld DEFAULT_MAX_LEN_OUTPUT []
          BASE_BUILTIN_MODULES (some [("print", Value.vtool Tool.printTool)]))
        defaultConfig 10
        [Ast.exprStmt (Ast.call (Ast.name "print")
          [Ast.constant (Const.cstr "hello")] [])]).1 =
      Except.ok (Value.vnone, "", false) :=
  ⟨fun _ _ _ => rfl, rfl⟩

/-! ## C5: the step counter -/

/-- An `ast.Constant` evaluates to its value from the post-check state
(line 191-192). -/
theorem evaluate_ast_constant (cfg : Config) (fuel : Nat) (k : Const) (scope : Nat)
    (tools : List (String × Value)) (imps : List String) (σ σ₁ : InterpState)
    (h : opsCheckIncrement cfg scope σ = (Except.ok (), σ₁)) :
    evaluate_ast cfg (fuel + 1) (Ast.constant k) scope tools imps σ =
      (Except.ok (constToValue k), σ₁) := by
  simp only [evaluate_ast, evalFnsAt_succ, evalStepFns, bind_def, h, pure]

/-- Reading the counter back after the in-place increment. -/
theorem counterValue_after_incr (σ : InterpState) (scope : Nat)
    (m : List (String × Value)) (a : Nat) (d : List (String × Value)) (c : Int)
    (h1 : alookup σ.scopes scope = some m)
    (h2 : alookup m "_operations_count" = some (Value.vref a)) :
    counterValue
      (InterpState.mk σ.scopes
        (aset σ.heap a (Obj.dict (aset d "counter" (Value.vint (c + 1)))))
        σ.nextScope σ.nextHeap) scope = some (c + 1) := by
  simp [counterValue, scopeBinding, h1, h2, alookup_aset_self]

/-- C5.  (1) From any state whose counter has reached the ceiling,
evaluating ANY node fails with the step-limit `InterpreterError`, the
state untouched.  (2) Below the ceiling, evaluating a node (here a
constant, the atomic case) first increments the session counter by
exactly one.  (3) `installCallState` — the prologue `evaluate_python_code`
runs before the body of every top-level call (lines 459-460) — resets
the counter to zero and the log buffer to empty regardless of what the
persistent state held.  (4) State bindings persist across facade calls:
a session that assigns `a = 1` in one call reads `a` back as 1 in the
next, whose own step budget is fresh.  (5) The source ceiling constant
is 10,000,000. -/
theorem claim_C5_step_counter :
    (∀ (cfg : Config) (fuel : Nat) (e : Ast) (scope : Nat)
      (tools : List (String × Value)) (imps : List String) (σ : InterpState)
      (m : List (String × Value)) (a : Nat) (d : List (String × Value)) (c : Int),
      alookup σ.scopes scope = some m →
      alookup m "_operations_count" = some (Value.vref a) →
      alookup σ.heap a = some (Obj.dict d) →
      alookup d "counter" = some (Value.vint c) →
      (cfg.maxOperations : Int) ≤ c →
      evaluate_ast cfg (fuel + 1) e scope tools imps σ =
        (Except.error (Err.interpreterError (maxOperationsMessage cfg.maxOperations)), σ)) ∧
    (∀ (cfg : Config) (fuel : Nat) (k : Const) (scope : Nat)
      (tools : List (String × Value)) (imps : List String) (σ : InterpState)
      (m : List (String × Value)) (a : Nat) (d : List (String × Value)) (c : Int),
      alookup σ.scopes scope = some m →
      alookup m "_operations_count" = some (Value.vref a) →
      alookup σ.heap a = some (Obj.dict d) →
      alookup d "counter" = some (Value.vint c) →
      c < (cfg.maxOperations : Int) →
      (evaluate_ast cfg (fuel + 1) (Ast.constant k) scope tools imps σ).1 =
          Except.ok (constToValue k) ∧
      counterValue (evaluate_ast cfg (fuel + 1) (Ast.constant k) scope tools imps σ).2
          scope = some (c + 1)) ∧
    (∀ (σ : InterpState) (m : List (String × Value)),
      alookup σ.scopes 0 = some m →
      counterValue (installCallState σ).2 0 = some 0 ∧
      printBufferValue (installCallState σ).2 = some "") ∧
    ((LocalPythonExecutor.init [] none).call defaultConfig 10
        [Ast.assign [Ast.name "a"] (Ast.constant (Const.cint 1))] =
      (Except.ok (Value.vint 1, "", false), sessionAfterAssign) ∧
     (sessionAfterAssign.call defaultConfig 10 [Ast.exprStmt (Ast.name "a")]).1 =
      Except.ok (Value.vint 1, "", false)) ∧
    (MAX_OPERATIONS = 10000000 ∧ defaultConfig.maxOperations = MAX_OPERATIONS) := by
  refine ⟨?_, ?_, ?_, ⟨rfl, rfl⟩, rfl, rfl⟩
  · intro cfg fuel e scope tools imps σ m a d c h1 h2 h3 h4 hc
    exact evaluate_ast_opsFail cfg fuel e scope tools imps σ σ _
      (opsCheck_limit cfg scope σ m a d c h1 h2 h3 h4 hc)
  · intro cfg fuel k scope tools imps σ m a d c h1 h2 h3 h4 hc
    have hstep := evaluate_ast_constant cfg fuel k scope tools imps σ _
      (opsCheck_incr cfg scope σ m a d c h1 h2 h3 h4 hc)
    rw [hstep]
    exact ⟨rfl, counterValue_after_incr σ scope m a d c h1 h2⟩
  · intro σ m hm
    rw [installCallState_eq σ m hm]
    constructor
    · simp only [counterValue, scopeBinding, alookup_aset_self]
      simp [alookup]
    · simp only [printBufferValue, scopeBinding, alookup_aset_self]
      rw [alookup_aset_other _ _ _ _ (by decide)]
      simp [alookup_aset_self, alookup, Nat.succ_ne_self]

/-- Witness for C5: the general conjuncts at a concrete state whose
counter sits exactly at a small ceiling (config with ceiling 3), below
it, and a junk-state reset. -/
theorem claim_C5_step_counter_witness :
    (evaluate_ast (Config.mk 3 1000) 1 (Ast.name "x") 0 [] []
        (InterpState.mk [(0, [("_operations_count", Value.vref 0)])]
          [(0, Obj.dict [("counter", Value.vint 3)])] 1 1) =
      (Except.error (Err.interpreterError (maxOperationsMessage 3)),
        InterpState.mk [(0, [("_operations_count", Value.vref 0)])]
          [(0, Obj.dict [("counter", Value.vint 3)])] 1 1)) ∧
    counterValue
        (evaluate_ast defaultConfig 1 (Ast.constant (Const.cint 7)) 0 [] []
          counterOnlyState).2 0 = some 1 ∧
    counterValue (installCallState counterOnlyState).2 0 = some 0 := by
  refine ⟨?_, ?_, ?_⟩
  · exact claim_C5_step_counter.1 (Config.mk 3 1000) 0 (Ast.name "x") 0 [] [] _
      [("_operations_count", Value.vref 0)] 0 [("counter", Value.vint 3)] 3
      rfl rfl rfl rfl (by decide)
  · exact (claim_C5_step_counter.2.1 defaultConfig 0 (Const.cint 7) 0 [] []
      counterOnlyState [("_operations_count", Value.vref 0)] 0
      [("counter", Value.vint 0)] 0 rfl rfl rfl rfl (by decide)).2
  · exact (claim_C5_step_counter.2.2.1 counterOnlyState
      [("_operations_count", Value.vref 0)] rfl).1

/-! ## C4: the governor state lives in ordinary State entries -/

/-- Lines 193-195: a `Name` resolves from State first — with no
hypothesis about the tool registry, so a State binding shadows any tool
of the same name. -/
theorem evaluate_ast_name_state_first (cfg : Config) (fuel : Nat) (vid : String)
    (scope : Nat) (tools : List (String × Value)) (imps : List String)
    (σ : InterpState) (m : List (String × Value)) (a : Nat)
    (d : List (String × Value)) (c : Int) (v : Value)
    (h1 : alookup σ.scopes scope = some m)
    (h2 : alookup m "_operations_count" = some (Value.vref a))
    (h3 : alookup σ.heap a = some (Obj.dict d))
    (h4 : alookup d "counter" = some (Value.vint c))
    (hc : c < (cfg.maxOperations : Int))
    (hb : alookup m vid = some v) :
    evaluate_ast cfg (fuel + 1) (Ast.name vid) scope tools imps σ =
      (Except.ok v,
        InterpState.mk σ.scopes
          (aset σ.heap a (Obj.dict (aset d "counter" (Value.vint (c + 1)))))
          σ.nextScope σ.nextHeap) := by
  have hstep := opsCheck_incr cfg scope σ m a d c h1 h2 h3 h4 hc
  simp only [evaluate_ast, evalFnsAt_succ, evalStepFns, bind_def, hstep, getScope]
  simp [h1, hb, pure]

/-- Lines 297-300: a single-name Assign target not present in
`static_tools` binds in State — in particular the reserved names, which
are ordinary entries. -/
theorem assignTargets_name_ok (cfg : Config) (fuel : Nat) (tid : String) (v : Value)
    (scope : Nat) (tools : List (String × Value)) (σ : InterpState)
    (m : List (String × Value))
    (ht : alookup tools tid = none) (hm : alookup σ.scopes scope = some m) :
    assignTargets cfg (fuel + 2) [Ast.name tid] v scope tools σ =
      (Except.ok (),
        InterpState.mk (aset σ.scopes scope (aset m tid v)) σ.heap σ.nextScope σ.nextHeap) := by
  simp only [assignTargets, evalFnsAt_succ, evalStepFns, bind_def, ht,
    Option.isSome_none, Bool.false_eq_true, if_false, scopeSet,
    aupdate_of_alookup _ _ _ _ hm, pure]

/-- C4.  The Resource Governor's counter and the log buffer are ordinary
State entries under `_operations_count` and `_print_outputs`:
(1)-(2) a program reads them back by bare name through the normal
lookup (here through full `evaluate_python_code` runs, returning the
heap references installed at call start); (3) name lookup consults State
first, regardless of the tool registry; (4) a single-name Assign rebinds
`_operations_count` like any other name (it is not a tool); and (5) the
rebound counter is the one consulted by subsequent step checks: with
ceiling 5 and a host-injected dict `d`, the program
`0; _operations_count = d; 0` succeeds, while the same-cost program
`0; d; 0` without the rebinding exhausts the budget and fails with the
step-limit error. -/
theorem claim_C4_governor_in_state :
    ((evaluate_python_code defaultConfig 10 [Ast.exprStmt (Ast.name "_operations_count")]
        (some []) BASE_BUILTIN_MODULES DEFAULT_MAX_LEN_OUTPUT initialWorld).1 =
      Except.ok (Value.vref 1, false)) ∧
    ((evaluate_python_code defaultConfig 10 [Ast.exprStmt (Ast.name "_print_outputs")]
        (some []) BASE_BUILTIN_MODULES DEFAULT_MAX_LEN_OUTPUT initialWorld).1 =
      Except.ok (Value.vprint 0, false)) ∧
    (∀ (cfg : Config) (fuel : Nat) (vid : String) (scope : Nat)
      (tools : List (String × Value)) (imps : List String) (σ : InterpState)
      (m : List (String × Value)) (a : Nat) (d : List (String × Value)) (c : Int)
      (v : Value),
      alookup σ.scopes scope = some m →
      alookup m "_operations_count" = some (Value.vref a) →
      alookup σ.heap a = some (Obj.dict d) →
      alookup d "counter" = some (Value.vint c) →
      c < (cfg.maxOperations : Int) →
      alookup m vid = some v →
      (evaluate_ast cfg (fuel + 1) (Ast.name vid) scope tools imps σ).1 = Except.ok v) ∧
    (∀ (cfg : Config) (fuel : Nat) (v : Value) (scope : Nat)
      (tools : List (String × Value)) (σ : InterpState) (m : List (String × Value)),
      alookup tools "_operations_count" = none →
      alookup σ.scopes scope = some m →
      scopeBinding
        (assignTargets cfg (fuel + 2) [Ast.name "_operations_count"] v scope tools σ).2
        scope "_operations_count" = some v) ∧
    ((evaluate_python_code (Config.mk 5 1000) 10 budgetProgReset (some [])
        BASE_BUILTIN_MODULES DEFAULT_MAX_LEN_OUTPUT worldWithCounterDict).1 =
      Except.ok (Value.vint 0, false)) ∧
    ((evaluate_python_code (Config.mk 5 1000) 10 budgetProgNoReset (some [])
        BASE_BUILTIN_MODULES DEFAULT_MAX_LEN_OUTPUT worldWithCounterDict).1 =
      Except.error (Err.interpreterError
        (codeExecutionFailedMessage (Ast.exprStmt (Ast.constant (Const.cint 0)))
          (Err.interpreterError (maxOperationsMessage 5))))) := by
  refine ⟨rfl, rfl, ?_, ?_, rfl, rfl⟩
  · intro cfg fuel vid scope tools imps σ m a d c v h1 h2 h3 h4 hc hb
    rw [evaluate_ast_name_state_first cfg fuel vid scope tools imps σ m a d c v
      h1 h2 h3 h4 hc hb]
  · intro cfg fuel v scope tools σ m ht hm
    rw [assignTargets_name_ok cfg fuel "_operations_count" v scope tools σ m ht hm]
    simp [scopeBinding, alookup_aset_self]

/-- Witness for C4's universally quantified conjuncts at concrete
inputs: reading a binding that shadows a registered tool of the same
name, and rebinding `_operations_count`. -/
theorem claim_C4_governor_in_state_witness :
    (evaluate_ast defaultConfig 1 (Ast.name "x") 0
        [("x", Value.vtool (Tool.customTool 3))] []
        (InterpState.mk [(0, [("_operations_count", Value.vref 0), ("x", Value.vint 42)])]
          [(0, Obj.dict [("counter", Value.vint 0)])] 1 1)).1 =
      Except.ok (Value.vint 42) ∧
    scopeBinding
        (assignTargets defaultConfig 2 [Ast.name "_operations_count"] (Value.vint 9) 0 []
          counterOnlyState).2 0 "_operations_count" = some (Value.vint 9) := by
  constructor
  · exact claim_C4_governor_in_state.2.2.1 defaultConfig 0 "x" 0
      [("x", Value.vtool (Tool.customTool 3))] [] _
      [("_operations_count", Value.vref 0), ("x", Value.vint 42)] 0
      [("counter", Value.vint 0)] 0 (Value.vint 42) rfl rfl rfl rfl (by decide) rfl
  · exact claim_C4_governor_in_state.2.2.2.1 defaultConfig 0 (Value.vint 9) 0 []
      counterOnlyState [("_operations_count", Value.vref 0)] rfl rfl

/-! ## C6: the While iteration ceiling -/

theorem aset_aset {κ α : Type} [DecidableEq κ] (l : List (κ × α)) (k : κ) (v w : α) :
    aset (aset l k v) k w = aset l k w := by
  induction l with
  | nil => simp [aset]
  | cons hd tl ih =>
      obtain ⟨k₀, v₀⟩ := hd
      by_cases h : k₀ = k
      · subst h
        simp [aset]
      · simp [aset, h, ih]

/-- An empty loop body runs through, keeping the accumulated result and
the state. -/
theorem loopBody_nil (cfg : Config) (fuel : Nat) (r : Value) (scope : Nat)
    (tools : List (String × Value)) (imps : List String) (σ : InterpState) :
    (evalFnsAt cfg (fuel + 1)).loopBody [] r scope tools imps σ =
      (Except.ok (LoopSig.ranThrough r), σ) := rfl

/-- One round of `while True:` with an empty body: evaluate the test
(one step-counter tick), run the body, then — while `iterations + 1` is
within the While ceiling — recurse with the iteration counter bumped
(lines 358-371). -/
theorem whileTrue_round_continue (cfg : Config) (fuel its scope : Nat)
    (tools : List (String × Value)) (imps : List String) (σ : InterpState)
    (m : List (String × Value)) (a : Nat) (d : List (String × Value)) (c : Int)
    (h1 : alookup σ.scopes scope = some m)
    (h2 : alookup m "_operations_count" = some (Value.vref a))
    (h3 : alookup σ.heap a = some (Obj.dict d))
    (h4 : alookup d "counter" = some (Value.vint c))
    (hc : c < (cfg.maxOperations : Int))
    (hit : its + 1 ≤ cfg.maxWhileIterations) :
    evalWhileLoop cfg (fuel + 2) its (Ast.constant (Const.cbool true)) [] scope tools imps σ =
      evalWhileLoop cfg (fuel + 1) (its + 1) (Ast.constant (Const.cbool true)) [] scope tools imps
        (InterpState.mk σ.scopes
          (aset σ.heap a (Obj.dict (aset d "counter" (Value.vint (c + 1)))))
          σ.nextScope σ.nextHeap) := by
  have htest : (evalFnsAt cfg (fuel + 1)).evalAst (Ast.constant (Const.cbool true))
      scope tools imps σ =
      (Except.ok (Value.vbool true),
        InterpState.mk σ.scopes
          (aset σ.heap a (Obj.dict (aset d "counter" (Value.vint (c + 1)))))
          σ.nextScope σ.nextHeap) :=
    evaluate_ast_constant cfg fuel (Const.cbool true) scope tools imps σ _
      (opsCheck_incr cfg scope σ m a d c h1 h2 h3 h4 hc)
  have hlb : (evalFnsAt cfg (fuel + 1)).loopBody [] Value.vnone scope tools imps
      (InterpState.mk σ.scopes
        (aset σ.heap a (Obj.dict (aset d "counter" (Value.vint (c + 1)))))
        σ.nextScope σ.nextHeap) =
      (Except.ok (LoopSig.ranThrough Value.vnone),
        InterpState.mk σ.scopes
          (aset σ.heap a (Obj.dict (aset d "counter" (Value.vint (c + 1)))))
          σ.nextScope σ.nextHeap) :=
    loopBody_nil cfg fuel Value.vnone scope tools imps _
  have hL : evalWhileLoop cfg (fuel + 2) its (Ast.constant (Const.cbool true)) [] scope
      tools imps σ =
      (evalStepFns cfg (evalFnsAt cfg (fuel + 1))).whileLoop its
        (Ast.constant (Const.cbool true)) [] scope tools imps σ := rfl
  have hR : evalWhileLoop cfg (fuel + 1) (its + 1) (Ast.constant (Const.cbool true)) []
      scope tools imps
      (InterpState.mk σ.scopes
        (aset σ.heap a (Obj.dict (aset d "counter" (Value.vint (c + 1)))))
        σ.nextScope σ.nextHeap) =
      (evalFnsAt cfg (fuel + 1)).whileLoop (its + 1) (Ast.constant (Const.cbool true)) []
        scope tools imps
        (InterpState.mk σ.scopes
          (aset σ.heap a (Obj.dict (aset d "counter" (Value.vint (c + 1)))))
          σ.nextScope σ.nextHeap) := rfl
  rw [hL, hR]
  generalize hG : evalFnsAt cfg (fuel + 1) = G at htest hlb ⊢
  simp only [evalStepFns, bind_def, htest, pyTruthy, hlb, if_true]
  rw [if_neg (by omega)]

/-- The final round: when `iterations + 1` exceeds the ceiling after the
body ran, the loop fails with `IterationLimitExceeded`. -/
theorem whileTrue_round_limit (cfg : Config) (fuel its scope : Nat)
    (tools : List (String × Value)) (imps : List String) (σ : InterpState)
    (m : List (String × Value)) (a : Nat) (d : List (String × Value)) (c : Int)
    (h1 : alookup σ.scopes scope = some m)
    (h2 : alookup m "_operations_count" = some (Value.vref a))
    (h3 : alookup σ.heap a = some (Obj.dict d))
    (h4 : alookup d "counter" = some (Value.vint c))
    (hc : c < (cfg.maxOperations : Int))
    (hit : cfg.maxWhileIterations < its + 1) :
    evalWhileLoop cfg (fuel + 2) its (Ast.constant (Const.cbool true)) [] scope tools imps σ =
      (Except.error (Err.interpreterError (maxIterationsMessage cfg.maxWhileIterations)),
        InterpState.mk σ.scopes
          (aset σ.heap a (Obj.dict (aset d "counter" (Value.vint (c + 1)))))
          σ.nextScope σ.nextHeap) := by
  have htest : (evalFnsAt cfg (fuel + 1)).evalAst (Ast.constant (Const.cbool true))
      scope tools imps σ =
      (Except.ok (Value.vbool true),
        InterpState.mk σ.scopes
          (aset σ.heap a (Obj.dict (aset d "counter" (Value.vint (c + 1)))))
          σ.nextScope σ.nextHeap) :=
    evaluate_ast_constant cfg fuel (Const.cbool true) scope tools imps σ _
      (opsCheck_incr cfg scope σ m a d c h1 h2 h3 h4 hc)
  have hlb : (evalFnsAt cfg (fuel + 1)).loopBody [] Value.vnone scope tools imps
      (InterpState.mk σ.scopes
        (aset σ.heap a (Obj.dict (aset d "counter" (Value.vint (c + 1)))))
        σ.nextScope σ.nextHeap) =
      (Except.ok (LoopSig.ranThrough Value.vnone),
        InterpState.mk σ.scopes
          (aset σ.heap a (Obj.dict (aset d "counter" (Value.vint (c + 1)))))
          σ.nextScope σ.nextHeap) :=
    loopBody_nil cfg fuel Value.vnone scope tools imps _
  have hL : evalWhileLoop cfg (fuel + 2) its (Ast.constant (Const.cbool true)) [] scope
      tools imps σ =
      (evalStepFns cfg (evalFnsAt cfg (fuel + 1))).whileLoop its
        (Ast.constant (Const.cbool true)) [] scope tools imps σ := rfl
  rw [hL]
  generalize hG : evalFnsAt cfg (fuel + 1) = G at htest hlb ⊢
  simp only [evalStepFns, bind_def, htest, pyTruthy, hlb, if_true]
  rw [if_pos (by omega)]
  rfl

/-- A `while True:` loop started `r` iterations below the ceiling runs
its body exactly `r + 1` more times — one past the point where the
counter reaches the ceiling — and then fails with
`IterationLimitExceeded`; the session step counter records the `r + 1`
test evaluations. -/
theorem whileTrue_hits_iteration_limit (cfg : Config) :
    ∀ (r fuel its scope : Nat) (tools : List (String × Value)) (imps : List String)
      (σ : InterpState) (m : List (String × Value)) (a : Nat)
      (d : List (String × Value)) (c : Int),
      its + r = cfg.maxWhileIterations →
      alookup σ.scopes scope = some m →
      alookup m "_operations_count" = some (Value.vref a) →
      alookup σ.heap a = some (Obj.dict d) →
      alookup d "counter" = some (Value.vint c) →
      c + ((r : Int) + 1) ≤ (cfg.maxOperations : Int) →
      evalWhileLoop cfg (fuel + r + 2) its (Ast.constant (Const.cbool true)) [] scope tools imps σ =
        (Except.error (Err.interpreterError (maxIterationsMessage cfg.maxWhileIterations)),
          InterpState.mk σ.scopes
            (aset σ.heap a (Obj.dict (aset d "counter" (Value.vint (c + ((r : Int) + 1))))))
            σ.nextScope σ.nextHeap) := by
  intro r
  induction r with
  | zero =>
      intro fuel its scope tools imps σ m a d c hits h1 h2 h3 h4 hops
      have := whileTrue_round_limit cfg fuel its scope tools imps σ m a d c h1 h2 h3 h4
        (by omega) (by omega)
      simpa using this
  | succ r ih =>
      intro fuel its scope tools imps σ m a d c hits h1 h2 h3 h4 hops
      have hstep := whileTrue_round_continue cfg (fuel + r + 1) its scope tools imps σ m a d c
        h1 h2 h3 h4 (by omega) (by omega)
      have hcast : (fuel + r + 1) + 2 = fuel + (r + 1) + 2 := by omega
      rw [hcast] at hstep
      rw [hstep]
      have hrest := ih fuel (its + 1) scope tools imps
        (InterpState.mk σ.scopes
          (aset σ.heap a (Obj.dict (aset d "counter" (Value.vint (c + 1)))))
          σ.nextScope σ.nextHeap)
        m a (aset d "counter" (Value.vint (c + 1))) (c + 1)
        (by omega) h1 h2 (by simp [alookup_aset_self]) (by simp [alookup_aset_self])
        (by omega)
      have hfuel : fuel + r + 2 = (fuel + r + 1) + 1 := by omega
      rw [hfuel] at hrest
      rw [hrest]
      have harith : c + 1 + ((r : Int) + 1) = c + (((r : Nat) + 1 : Nat) + 1) := by
        push_cast
        ring_nf
      rw [aset_aset, aset_aset, harith]

/-- A For loop has no iteration ceiling of its own: with a Name target
and an empty body it completes over ANY element list, whatever
`maxWhileIterations` is (here even for a configuration whose While
ceiling is smaller than the list). -/
theorem forLoop_no_iteration_limit (cfg : Config) :
    ∀ (elems : List Value) (fuel : Nat) (tid : String) (r : Value) (scope : Nat)
      (tools : List (String × Value)) (imps : List String) (σ : InterpState)
      (m : List (String × Value)),
      alookup σ.scopes scope = some m →
      ∃ σ', evalForElems cfg (fuel + elems.length + 2) (Ast.name tid) elems [] r
          scope tools imps σ = (Except.ok r, σ') := by
  intro elems
  induction elems with
  | nil =>
      intro fuel tid r scope tools imps σ m hm
      exact ⟨σ, rfl⟩
  | cons v vs ih =>
      intro fuel tid r scope tools imps σ m hm
      have hset : scopeSet scope tid v σ =
          (Except.ok (),
            InterpState.mk (aset σ.scopes scope (aset m tid v)) σ.heap σ.nextScope σ.nextHeap) := by
        simp only [scopeSet, aupdate_of_alookup _ _ _ _ hm]
      have hm₁ : alookup
          (InterpState.mk (aset σ.scopes scope (aset m tid v)) σ.heap σ.nextScope
            σ.nextHeap).scopes scope = some (aset m tid v) := by
        simp [alookup_aset_self]
      obtain ⟨σ', h'⟩ := ih fuel tid r scope tools imps _ (aset m tid v) hm₁
      refine ⟨σ', ?_⟩
      have hlb : (evalFnsAt cfg (fuel + vs.length + 2)).loopBody [] r scope tools imps
          (InterpState.mk (aset σ.scopes scope (aset m tid v)) σ.heap σ.nextScope σ.nextHeap) =
          (Except.ok (LoopSig.ranThrough r),
            InterpState.mk (aset σ.scopes scope (aset m tid v)) σ.heap σ.nextScope σ.nextHeap) :=
        loopBody_nil cfg (fuel + vs.length + 1) r scope tools imps _
      have hrec : (evalFnsAt cfg (fuel + vs.length + 2)).forElems (Ast.name tid) vs [] r
          scope tools imps
          (InterpState.mk (aset σ.scopes scope (aset m tid v)) σ.heap σ.nextScope σ.nextHeap) =
          (Except.ok r, σ') := h'
      have hL : evalForElems cfg (fuel + (v :: vs).length + 2) (Ast.name tid) (v :: vs) [] r
          scope tools imps σ =
          (evalStepFns cfg (evalFnsAt cfg (fuel + vs.length + 2))).forElems (Ast.name tid)
            (v :: vs) [] r scope tools imps σ := rfl
      rw [hL]
      generalize hG : evalFnsAt cfg (fuel + vs.length + 2) = G at hlb hrec ⊢
      simp only [evalStepFns, bind_def, hset, hlb, hrec]

/-- C6.  Amended form: a `while True:` loop maintains its own iteration
counter and fails with `IterationLimitExceeded` — but only after the
body has run `maxWhileIterations + 1` times, one round past the ceiling,
since the check `iterations > MAX_WHILE_ITERATIONS` runs after each
completed body (conjunct 1: starting at iteration 0, the loop performs
exactly `ceiling + 1` test evaluations, as the step counter records,
then raises).  A For loop has no iteration ceiling of its own: it
completes over any element list even under a configuration whose While
ceiling is smaller than the list (conjunct 2), bounded only by the
global step budget.  The source ceiling constant is 1,000,000
(conjunct 3). -/
theorem claim_C6_iteration_ceiling :
    (∀ (cfg : Config) (fuel scope : Nat) (tools : List (String × Value))
      (imps : List String) (σ : InterpState) (m : List (String × Value)) (a : Nat)
      (d : List (String × Value)) (c : Int),
      alookup σ.scopes scope = some m →
      alookup m "_operations_count" = some (Value.vref a) →
      alookup σ.heap a = some (Obj.dict d) →
      alookup d "counter" = some (Value.vint c) →
      c + ((cfg.maxWhileIterations : Int) + 1) ≤ (cfg.maxOperations : Int) →
      evalWhileLoop cfg (fuel + cfg.maxWhileIterations + 2) 0
          (Ast.constant (Const.cbool true)) [] scope tools imps σ =
        (Except.error (Err.interpreterError (maxIterationsMessage cfg.maxWhileIterations)),
          InterpState.mk σ.scopes
            (aset σ.heap a (Obj.dict (aset d "counter"
              (Value.vint (c + ((cfg.maxWhileIterations : Int) + 1))))))
            σ.nextScope σ.nextHeap)) ∧
    (∀ (cfg : Config) (elems : List Value) (fuel : Nat) (tid : String) (r : Value)
      (scope : Nat) (tools : List (String × Value)) (imps : List String)
      (σ : InterpState) (m : List (String × Value)),
      alookup σ.scopes scope = some m →
      ∃ σ', evalForElems cfg (fuel + elems.length + 2) (Ast.name tid) elems [] r
          scope tools imps σ = (Except.ok r, σ')) ∧
    (MAX_WHILE_ITERATIONS = 1000000 ∧ defaultConfig.maxWhileIterations = MAX_WHILE_ITERATIONS) := by
  refine ⟨?_, ?_, rfl, rfl⟩
  · intro cfg fuel scope tools imps σ m a d c h1 h2 h3 h4 hops
    exact whileTrue_hits_iteration_limit cfg cfg.maxWhileIterations fuel 0 scope tools imps
      σ m a d c (by omega) h1 h2 h3 h4 hops
  · intro cfg elems fuel tid r scope tools imps σ m hm
    exact forLoop_no_iteration_limit cfg elems fuel tid r scope tools imps σ m hm

/-- Counterexample for C6 as stated: with the iteration ceiling
configured to 2, the loop `while True: i = i + 1` does fail with
`IterationLimitExceeded`, but only after its body executed 3 times — the
final State holds `i = 3`, one full iteration beyond the ceiling,
refuting "it never loops beyond that bound". -/
theorem claim_C6_counterexample :
    (evalWhileLoop smallWhileCfg 20 0 (Ast.constant (Const.cbool true)) incrBody 0 [] []
        iZeroState).1 =
      Except.error (Err.interpreterError (maxIterationsMessage 2)) ∧
    scopeBinding
        (evalWhileLoop smallWhileCfg 20 0 (Ast.constant (Const.cbool true)) incrBody 0 [] []
          iZeroState).2 0 "i" = some (Value.vint 3) := ⟨rfl, rfl⟩

/-- Witness for C6: the general conjuncts at concrete inputs — ceiling
1 with a fresh counter (the loop fails after 2 test evaluations), and a
3-element For loop under a configuration whose While ceiling is 0. -/
theorem claim_C6_iteration_ceiling_witness :
    evalWhileLoop (Config.mk 10 1) 3 0 (Ast.constant (Const.cbool true)) [] 0 [] []
        counterOnlyState =
      (Except.error (Err.interpreterError (maxIterationsMessage 1)),
        InterpState.mk [(0, [("_operations_count", Value.vref 0)])]
          [(0, Obj.dict [("counter", Value.vint 2)])] 1 1) ∧
    (∃ σ', evalForElems (Config.mk 10 0) 5 (Ast.name "x")
        [Value.vint 1, Value.vint 2, Value.vint 3] [] Value.vnone 0 [] []
        counterOnlyState = (Except.ok Value.vnone, σ')) := by
  constructor
  · have h := claim_C6_iteration_ceiling.1 (Config.mk 10 1) 0 0 [] [] counterOnlyState
      [("_operations_count", Value.vref 0)] 0 [("counter", Value.vint 0)] 0
      rfl rfl rfl rfl (by decide)
    simpa [counterOnlyState, aset, alookup] using h
  · exact claim_C6_iteration_ceiling.2.1 (Config.mk 10 0)
      [Value.vint 1, Value.vint 2, Value.vint 3] 0 "x" Value.vnone 0 [] []
      counterOnlyState [("_operations_count", Value.vref 0)] rfl

/-! ## C8: failure propagation and committed state -/

/-- A successful top-level statement hands its post-state to the rest of
the statement list (lines 471-472). -/
theorem runTopStmts_cons_ok_cons (cfg : Config) (fuel : Nat) (s q : Ast) (rest : List Ast)
    (tools : List (String × Value)) (imps : List String) (σ σ' : InterpState) (v : Value)
    (h : evaluate_ast cfg fuel s 0 tools imps σ = (Except.ok v, σ')) :
    runTopStmts cfg fuel (s :: q :: rest) tools imps σ =
      runTopStmts cfg fuel (q :: rest) tools imps σ' := by
  simp only [runTopStmts, bind_def, catchM, h]

/-- A failing top-level statement makes the whole statement loop fail
with the error annotated by that statement (the `node` loop variable),
except for the final-answer signal, which propagates as itself
(line 478), and the fuel artifact. -/
theorem runTopStmts_cons_err (cfg : Config) (fuel : Nat) (s : Ast) (rest : List Ast)
    (tools : List (String × Value)) (imps : List String) (σ σ' : InterpState) (e : Err)
    (h : evaluate_ast cfg fuel s 0 tools imps σ = (Except.error e, σ'))
    (hfa : ∀ v, e ≠ Err.finalAnswer v) (hof : e ≠ Err.outOfFuel) :
    runTopStmts cfg fuel (s :: rest) tools imps σ =
      (Except.error (Err.atNode s e), σ') := by
  cases rest with
  | nil =>
      simp only [runTopStmts, bind_def, catchM, h]
      cases e <;> simp_all [throwM]
  | cons q qs =>
      simp only [runTopStmts, bind_def, catchM, h]
      cases e <;> simp_all [throwM]

/-- Statement-list composition: once a prefix has run successfully, the
whole list behaves like the remainder started from the prefix's final
state. -/
theorem runTopStmts_append_ok (cfg : Config) (fuel : Nat)
    (tools : List (String × Value)) (imps : List String) :
    ∀ (pre ys : List Ast) (σ σ₁ : InterpState) (r : Option Value),
      runTopStmts cfg fuel pre tools imps σ = (Except.ok r, σ₁) → ys ≠ [] →
      runTopStmts cfg fuel (pre ++ ys) tools imps σ =
        runTopStmts cfg fuel ys tools imps σ₁ := by
  intro pre
  induction pre with
  | nil =>
      intro ys σ σ₁ r hpre hys
      simp only [runTopStmts, pure] at hpre
      cases hpre
      simp
  | cons p ps ih =>
      intro ys σ σ₁ r hpre hys
      rcases hev : evaluate_ast cfg fuel p 0 tools imps σ with ⟨res, σ'⟩
      cases res with
      | error e =>
          exfalso
          cases ps with
          | nil =>
              simp only [runTopStmts, bind_def, catchM, hev] at hpre
              cases e <;> simp_all [throwM]
          | cons q qs =>
              simp only [runTopStmts, bind_def, catchM, hev] at hpre
              cases e <;> simp_all [throwM]
      | ok v =>
          cases ps with
          | nil =>
              simp only [runTopStmts, bind_def, catchM, hev, pure] at hpre
              cases hpre
              cases ys with
              | nil => exact absurd rfl hys
              | cons y yy =>
                  simpa using runTopStmts_cons_ok_cons cfg fuel p y yy tools imps σ σ₁ v hev
          | cons q qs =>
              have hpre' : runTopStmts cfg fuel (q :: qs) tools imps σ' = (Except.ok r, σ₁) := by
                have := runTopStmts_cons_ok_cons cfg fuel p q qs tools imps σ σ' v hev
                rw [this] at hpre
                exact hpre
              have hcomp := ih ys σ' σ₁ r hpre' hys
              have hstep := runTopStmts_cons_ok_cons cfg fuel p q (qs ++ ys) tools imps σ σ' v hev
              calc runTopStmts cfg fuel ((p :: q :: qs) ++ ys) tools imps σ
                  = runTopStmts cfg fuel ((q :: qs) ++ ys) tools imps σ' := by
                    simpa using hstep
                _ = runTopStmts cfg fuel ys tools imps σ₁ := hcomp

/-- The failure branch of `evaluate_python_code` (lines 484-490): an
error annotated with its statement is re-raised as `InterpreterError`
with the statement and the underlying error kind in the message, after
the log buffer is truncated in the state at the failure point. -/
theorem evaluate_python_code_fail (cfg : Config) (fuel : Nat) (body : List Ast)
    (tools? : Option (List (String × Value))) (imps : List String) (maxLen : Nat)
    (σ₀ σset σ₂ σ₃ : InterpState) (s : Ast) (e : Err)
    (hsetup : installCallState σ₀ = (Except.ok (), σset))
    (hrun : runTopStmts cfg fuel body (wrapFinalAnswer (tools?.getD [])) imps σset =
      (Except.error (Err.atNode s e), σ₂))
    (htr : truncatePrintOutputs maxLen σ₂ = (Except.ok (), σ₃)) :
    evaluate_python_code cfg fuel body tools? imps maxLen σ₀ =
      (Except.error (Err.interpreterError (codeExecutionFailedMessage s e)), σ₃) := by
  simp only [evaluate_python_code, bind_def, hsetup, catchM, hrun, htr, throwM]

/-- C8.  (1) When a prefix of the program runs successfully and the next
statement fails with an ordinary error, the whole
`evaluate_python_code` call raises `InterpreterError` whose message
carries the failing statement and the underlying error kind — it does
not return a result pair — and the final state is exactly the state at
the failure point (every mutation of the successful prefix committed),
changed only by the end-of-call log truncation.  (2) The facade
propagates the error and keeps the mutated world as the session state.
(3) Concretely: `x = 1` followed by the undefined name `nope` fails with
the wrapped UndefinedName error, and the session state still holds
`x = 1`. -/
theorem claim_C8_failure_keeps_state :
    (∀ (cfg : Config) (fuel : Nat) (pre : List Ast) (s : Ast)
      (tools? : Option (List (String × Value))) (imps : List String) (maxLen : Nat)
      (σ₀ σset σ₁ σ₂ σ₃ : InterpState) (r : Option Value) (e : Err),
      installCallState σ₀ = (Except.ok (), σset) →
      runTopStmts cfg fuel pre (wrapFinalAnswer (tools?.getD [])) imps σset =
        (Except.ok r, σ₁) →
      evaluate_ast cfg fuel s 0 (wrapFinalAnswer (tools?.getD [])) imps σ₁ =
        (Except.error e, σ₂) →
      (∀ v, e ≠ Err.finalAnswer v) → e ≠ Err.outOfFuel →
      truncatePrintOutputs maxLen σ₂ = (Except.ok (), σ₃) →
      evaluate_python_code cfg fuel (pre ++ [s]) tools? imps maxLen σ₀ =
        (Except.error (Err.interpreterError (codeExecutionFailedMessage s e)), σ₃)) ∧
    (∀ (ex : LocalPythonExecutor) (cfg : Config) (fuel : Nat) (code : List Ast)
      (e : Err) (σ : InterpState),
      evaluate_python_code cfg fuel code ex.static_tools ex.authorized_imports
          ex.max_print_outputs_length ex.world = (Except.error e, σ) →
      ex.call cfg fuel code =
        (Except.error e,
          LocalPythonExecutor.mk σ ex.max_print_outputs_length
            ex.additional_authorized_imports ex.authorized_imports ex.static_tools)) ∧
    ((evaluate_python_code defaultConfig 10
        [Ast.assign [Ast.name "x"] (Ast.constant (Const.cint 1)),
         Ast.exprStmt (Ast.name "nope")]
        (some []) BASE_BUILTIN_MODULES DEFAULT_MAX_LEN_OUTPUT initialWorld).1 =
      Except.error (Err.interpreterError
        (codeExecutionFailedMessage (Ast.exprStmt (Ast.name "nope"))
          (Err.interpreterError "The variable `nope` is not defined."))) ∧
     scopeBinding
        (evaluate_python_code defaultConfig 10
          [Ast.assign [Ast.name "x"] (Ast.constant (Const.cint 1)),
           Ast.exprStmt (Ast.name "nope")]
          (some []) BASE_BUILTIN_MODULES DEFAULT_MAX_LEN_OUTPUT initialWorld).2 0 "x" =
      some (Value.vint 1)) := by
  refine ⟨?_, ?_, rfl, rfl⟩
  · intro cfg fuel pre s tools? imps maxLen σ₀ σset σ₁ σ₂ σ₃ r e
      hsetup hpre hfail hfa hof htr
    have hrun : runTopStmts cfg fuel (pre ++ [s]) (wrapFinalAnswer (tools?.getD []))
        imps σset = (Except.error (Err.atNode s e), σ₂) := by
      rw [runTopStmts_append_ok cfg fuel _ imps pre [s] σset σ₁ r hpre (by simp)]
      exact runTopStmts_cons_err cfg fuel s [] _ imps σ₁ σ₂ e hfail hfa hof
    exact evaluate_python_code_fail cfg fuel (pre ++ [s]) tools? imps maxLen
      σ₀ σset σ₂ σ₃ s e hsetup hrun htr
  · intro ex cfg fuel code e σ h
    simp only [LocalPythonExecutor.call, h]

/-- Witness for C8's general conjuncts at the concrete failing program
`x = 1; nope`. -/
theorem claim_C8_failure_keeps_state_witness :
    evaluate_python_code defaultConfig 10
        [Ast.assign [Ast.name "x"] (Ast.constant (Const.cint 1)),
         Ast.exprStmt (Ast.name "nope")]
        (some []) BASE_BUILTIN_MODULES DEFAULT_MAX_LEN_OUTPUT initialWorld =
      (Except.error (Err.interpreterError
        (codeExecutionFailedMessage (Ast.exprStmt (Ast.name "nope"))
          (Err.interpreterError "The variable `nope` is not defined."))),
        (truncatePrintOutputs DEFAULT_MAX_LEN_OUTPUT
          (evaluate_ast defaultConfig 10 (Ast.exprStmt (Ast.name "nope")) 0 [] BASE_BUILTIN_MODULES
            (runTopStmts defaultConfig 10 [Ast.assign [Ast.name "x"] (Ast.constant (Const.cint 1))]
              [] BASE_BUILTIN_MODULES (installCallState initialWorld).2).2).2).2) ∧
    scopeBinding
        (evaluate_python_code defaultConfig 10
          [Ast.assign [Ast.name "x"] (Ast.constant (Const.cint 1)),
           Ast.exprStmt (Ast.name "nope")]
          (some []) BASE_BUILTIN_MODULES DEFAULT_MAX_LEN_OUTPUT initialWorld).2 0 "x" =
      some (Value.vint 1) := by
  constructor
  · exact claim_C8_failure_keeps_state.1 defaultConfig 10
      [Ast.assign [Ast.name "x"] (Ast.constant (Const.cint 1))]
      (Ast.exprStmt (Ast.name "nope")) (some []) BASE_BUILTIN_MODULES
      DEFAULT_MAX_LEN_OUTPUT initialWorld _ _ _ _
      (some (Value.vint 1)) (Err.interpreterError "The variable `nope` is not defined.")
      rfl rfl rfl (fun v => by simp) (by simp) rfl
  · rfl

/-! ## C10: determinism for pure code -/

/-- C10.  Re-running identical source against a freshly-constructed
executor with identically injected variables yields identical results,
logs, final-answer flags and final session states: the evaluator is a
function of the code, the injected state, the tool registry and the
authorized imports.  (The embedding is deterministic by construction:
every modelled builtin is a pure function of the interpreter state, and
the claim itself excludes host tools and nondeterministic modules.)  The
second conjunct states the same at the `evaluate_python_code` level for
any equal starting states. -/
theorem claim_C10_determinism :
    (∀ (imports : List String) (maxLen : Option Nat) (vars : List (String × Value))
      (cfg : Config) (fuel : Nat) (code : List Ast),
      ((LocalPythonExecutor.init imports maxLen).send_variables vars).call cfg fuel code =
      ((LocalPythonExecutor.init imports maxLen).send_variables vars).call cfg fuel code) ∧
    (∀ (cfg : Config) (fuel : Nat) (body : List Ast)
      (tools? : Option (List (String × Value))) (imps : List String) (maxLen : Nat)
      (σ σ' : InterpState), σ = σ' →
      evaluate_python_code cfg fuel body tools? imps maxLen σ =
        evaluate_python_code cfg fuel body tools? imps maxLen σ') :=
  ⟨fun _ _ _ _ _ _ => rfl, fun _ _ _ _ _ _ _ _ h => by rw [h]⟩

/-- Witness for C10 at a concrete session: two identically-built
executors running `2 + 2` agree. -/
theorem claim_C10_determinism_witness :
    ((LocalPythonExecutor.init [] none).send_variables [("a", Value.vint 1)]).call
        defaultConfig 10
        [Ast.exprStmt (Ast.binop BinOpKind.add (Ast.constant (Const.cint 2))
          (Ast.constant (Const.cint 2)))] =
      ((LocalPythonExecutor.init [] none).send_variables [("a", Value.vint 1)]).call
        defaultConfig 10
        [Ast.exprStmt (Ast.binop BinOpKind.add (Ast.constant (Const.cint 2))
          (Ast.constant (Const.cint 2)))] :=
  claim_C10_determinism.1 [] none [("a", Value.vint 1)] defaultConfig 10
    [Ast.exprStmt (Ast.binop BinOpKind.add (Ast.constant (Const.cint 2))
      (Ast.constant (Const.cint 2)))]

/-! ## C9: user-defined function invocation -/

/-- Lines 412-413: a function whose name is exactly `__init__` returns
None on every successful invocation, whatever its body computed. -/
theorem callClosure_init_returns_none (cfg : Config) (fuel : Nat)
    (argNames : List String) (defaults : List Ast) (vararg kwarg : Option String)
    (body : List Ast) (defScope : Nat) (args : List Value)
    (kwargs : List (String × Value)) (tools : List (String × Value))
    (imps : List String) (σ σ' : InterpState) (v : Value)
    (h : callClosure cfg fuel "__init__" argNames defaults vararg kwarg body defScope
      args kwargs tools imps σ = (Except.ok v, σ')) :
    v = Value.vnone := by
  cases fuel with
  | zero =>
      simp only [callClosure, evalFnsAt, fuelZeroFns, throwM] at h
      cases h
  | succ f =>
      simp only [callClosure, evalFnsAt_succ, evalStepFns, bind_def, catchM] at h
      repeat' split at h
      all_goals try simp only [bind_def, heapAlloc, allocScope, catchM, pure, throwM] at h
      all_goals repeat' split at h
      all_goals simp_all [pure, throwM]

/-- Left-to-right evaluation of an empty argument list succeeds without
touching the state (line 288 with no arguments). -/
theorem astList_nil (cfg : Config) (fuel : Nat) (scope : Nat)
    (tools : List (String × Value)) (imps : List String) (σ : InterpState) :
    (evalFnsAt cfg (fuel + 1)).astList [] scope tools imps σ = (Except.ok [], σ) := rfl

/-- `name = constant` under a well-formed counter: two governor steps,
the constant bound in the scope, nothing else changed (lines 185-189,
223-224, 294-301). -/
theorem evaluate_ast_assign_const (cfg : Config) (fuel : Nat) (tid : String) (k : Const)
    (scope : Nat) (tools : List (String × Value)) (imps : List String) (σ : InterpState)
    (m : List (String × Value)) (a : Nat) (d : List (String × Value)) (c : Int)
    (h1 : alookup σ.scopes scope = some m)
    (h2 : alookup m "_operations_count" = some (Value.vref a))
    (h3 : alookup σ.heap a = some (Obj.dict d))
    (h4 : alookup d "counter" = some (Value.vint c))
    (hc : c + 1 < (cfg.maxOperations : Int))
    (ht : alookup tools tid = none) :
    evaluate_ast cfg (fuel + 3) (Ast.assign [Ast.name tid] (Ast.constant k)) scope tools imps σ =
      (Except.ok (constToValue k),
        InterpState.mk (aset σ.scopes scope (aset m tid (constToValue k)))
          (aset σ.heap a (Obj.dict (aset d "counter" (Value.vint (c + 2)))))
          σ.nextScope σ.nextHeap) := by
  have ha1 : (c : Int) + 1 + 1 = c + 2 := by ring
  have hops1 := opsCheck_incr cfg scope σ m a d c h1 h2 h3 h4 (by omega)
  have hops2 : opsCheckIncrement cfg scope
      (InterpState.mk σ.scopes
        (aset σ.heap a (Obj.dict (aset d "counter" (Value.vint (c + 1)))))
        σ.nextScope σ.nextHeap) =
      (Except.ok (),
        InterpState.mk σ.scopes
          (aset σ.heap a (Obj.dict (aset d "counter" (Value.vint (c + 2)))))
          σ.nextScope σ.nextHeap) := by
    have h := opsCheck_incr cfg scope
      (InterpState.mk σ.scopes
        (aset σ.heap a (Obj.dict (aset d "counter" (Value.vint (c + 1)))))
        σ.nextScope σ.nextHeap)
      m a (aset d "counter" (Value.vint (c + 1))) (c + 1)
      h1 h2 (alookup_aset_self _ _ _) (alookup_aset_self _ _ _) (by omega)
    simpa [aset_aset, ha1] using h
  have hconst : evaluate_ast cfg (fuel + 2) (Ast.constant k) scope tools imps
      (InterpState.mk σ.scopes
        (aset σ.heap a (Obj.dict (aset d "counter" (Value.vint (c + 1)))))
        σ.nextScope σ.nextHeap) =
      (Except.ok (constToValue k),
        InterpState.mk σ.scopes
          (aset σ.heap a (Obj.dict (aset d "counter" (Value.vint (c + 2)))))
          σ.nextScope σ.nextHeap) :=
    evaluate_ast_constant cfg (fuel + 1) k scope tools imps _ _ hops2
  have hasg : assignTargets cfg (fuel + 2) [Ast.name tid] (constToValue k) scope tools
      (InterpState.mk σ.scopes
        (aset σ.heap a (Obj.dict (aset d "counter" (Value.vint (c + 2)))))
        σ.nextScope σ.nextHeap) =
      (Except.ok (),
        InterpState.mk (aset σ.scopes scope (aset m tid (constToValue k)))
          (aset σ.heap a (Obj.dict (aset d "counter" (Value.vint (c + 2)))))
          σ.nextScope σ.nextHeap) :=
    assignTargets_name_ok cfg fuel tid (constToValue k) scope tools _ m ht h1
  have hL : evaluate_ast cfg (fuel + 3)
      (Ast.assign [Ast.name tid] (Ast.constant k)) scope tools imps σ =
      (evalStepFns cfg (evalFnsAt cfg (fuel + 2))).evalAst
        (Ast.assign [Ast.name tid] (Ast.constant k)) scope tools imps σ := rfl
  rw [hL]
  simp only [evaluate_ast] at hconst
  simp only [assignTargets] at hasg
  generalize hG : evalFnsAt cfg (fuel + 2) = G at hconst hasg ⊢
  simp only [evalStepFns, bind_def, hops1, hconst, hasg, pure]

/-- `return name` under a well-formed counter: two governor steps, then
the Return signal carrying the CURRENT binding of the name (lines
185-189, 193-195, 375-379). -/
theorem evaluate_ast_return_name (cfg : Config) (fuel : Nat) (vid : String)
    (scope : Nat) (tools : List (String × Value)) (imps : List String) (σ : InterpState)
    (m : List (String × Value)) (a : Nat) (d : List (String × Value)) (c : Int) (v : Value)
    (h1 : alookup σ.scopes scope = some m)
    (h2 : alookup m "_operations_count" = some (Value.vref a))
    (h3 : alookup σ.heap a = some (Obj.dict d))
    (h4 : alookup d "counter" = some (Value.vint c))
    (hc : c + 1 < (cfg.maxOperations : Int))
    (hb : alookup m vid = some v) :
    evaluate_ast cfg (fuel + 2) (Ast.returnStmt (some (Ast.name vid))) scope tools imps σ =
      (Except.error (Err.returnSignal v),
        InterpState.mk σ.scopes
          (aset σ.heap a (Obj.dict (aset d "counter" (Value.vint (c + 2)))))
          σ.nextScope σ.nextHeap) := by
  have ha1 : (c : Int) + 1 + 1 = c + 2 := by ring
  have hops1 := opsCheck_incr cfg scope σ m a d c h1 h2 h3 h4 (by omega)
  have hname : evaluate_ast cfg (fuel + 1) (Ast.name vid) scope tools imps
      (InterpState.mk σ.scopes
        (aset σ.heap a (Obj.dict (aset d "counter" (Value.vint (c + 1)))))
        σ.nextScope σ.nextHeap) =
      (Except.ok v,
        InterpState.mk σ.scopes
          (aset σ.heap a (Obj.dict (aset d "counter" (Value.vint (c + 2)))))
          σ.nextScope σ.nextHeap) := by
    have h := evaluate_ast_name_state_first cfg fuel vid scope tools imps
      (InterpState.mk σ.scopes
        (aset σ.heap a (Obj.dict (aset d "counter" (Value.vint (c + 1)))))
        σ.nextScope σ.nextHeap)
      m a (aset d "counter" (Value.vint (c + 1))) (c + 1) v
      h1 h2 (alookup_aset_self _ _ _) (alookup_aset_self _ _ _) (by omega) hb
    simpa [aset_aset, ha1] using h
  have hL : evaluate_ast cfg (fuel + 2)
      (Ast.returnStmt (some (Ast.name vid))) scope tools imps σ =
      (evalStepFns cfg (evalFnsAt cfg (fuel + 1))).evalAst
        (Ast.returnStmt (some (Ast.name vid))) scope tools imps σ := rfl
  rw [hL]
  simp only [evaluate_ast] at hname
  generalize hG : evalFnsAt cfg (fuel + 1) = G at hname ⊢
  simp only [evalStepFns, bind_def, hops1, hname, throwM]

/-- Running the body `y = 5; return x` in a scope whose map is `m`: four
governor steps, `y` bound in that scope only, and the Return signal
carrying the binding `x` had in `m` when the body started (lines
185-189, 294-301, 375-379, 420-434 of the statement loop inside
`new_func`). -/
theorem stmtsLast_funcBodyC9 (cfg : Config) (fuel : Nat) (scope : Nat)
    (tools : List (String × Value)) (imps : List String) (σ : InterpState)
    (m : List (String × Value)) (a : Nat) (d : List (String × Value)) (c : Int) (v : Value)
    (h1 : alookup σ.scopes scope = some m)
    (h2 : alookup m "_operations_count" = some (Value.vref a))
    (h3 : alookup σ.heap a = some (Obj.dict d))
    (h4 : alookup d "counter" = some (Value.vint c))
    (hbud : c + 3 < (cfg.maxOperations : Int))
    (ht : alookup tools "y" = none)
    (hx : alookup m "x" = some v) :
    (evalFnsAt cfg (fuel + 4)).stmtsLast funcBodyC9 scope tools imps σ =
      (Except.error (Err.returnSignal v),
        InterpState.mk (aset σ.scopes scope (aset m "y" (Value.vint 5)))
          (aset σ.heap a (Obj.dict (aset d "counter" (Value.vint (c + 4)))))
          σ.nextScope σ.nextHeap) := by
  have ha2 : (c : Int) + 2 + 2 = c + 4 := by ring
  have hasg : evaluate_ast cfg (fuel + 3)
      (Ast.assign [Ast.name "y"] (Ast.constant (Const.cint 5))) scope tools imps σ =
      (Except.ok (Value.vint 5),
        InterpState.mk (aset σ.scopes scope (aset m "y" (Value.vint 5)))
          (aset σ.heap a (Obj.dict (aset d "counter" (Value.vint (c + 2)))))
          σ.nextScope σ.nextHeap) := by
    have h := evaluate_ast_assign_const cfg fuel "y" (Const.cint 5) scope tools imps σ
      m a d c h1 h2 h3 h4 (by omega) ht
    simpa [constToValue] using h
  have hret : evaluate_ast cfg (fuel + 2)
      (Ast.returnStmt (some (Ast.name "x"))) scope tools imps
      (InterpState.mk (aset σ.scopes scope (aset m "y" (Value.vint 5)))
        (aset σ.heap a (Obj.dict (aset d "counter" (Value.vint (c + 2)))))
        σ.nextScope σ.nextHeap) =
      (Except.error (Err.returnSignal v),
        InterpState.mk (aset σ.scopes scope (aset m "y" (Value.vint 5)))
          (aset σ.heap a (Obj.dict (aset d "counter" (Value.vint (c + 4)))))
          σ.nextScope σ.nextHeap) := by
    have h := evaluate_ast_return_name cfg fuel "x" scope tools imps
      (InterpState.mk (aset σ.scopes scope (aset m "y" (Value.vint 5)))
        (aset σ.heap a (Obj.dict (aset d "counter" (Value.vint (c + 2)))))
        σ.nextScope σ.nextHeap)
      (aset m "y" (Value.vint 5)) a (aset d "counter" (Value.vint (c + 2))) (c + 2) v
      (alookup_aset_self _ _ _)
      ((alookup_aset_other m "y" "_operations_count" _ (by decide)).trans h2)
      (alookup_aset_self _ _ _) (alookup_aset_self _ _ _) (by omega)
      ((alookup_aset_other m "y" "x" _ (by decide)).trans hx)
    simpa [aset_aset, ha2] using h
  have hrest : (evalFnsAt cfg (fuel + 3)).stmtsLast
      [Ast.returnStmt (some (Ast.name "x"))] scope tools imps
      (InterpState.mk (aset σ.scopes scope (aset m "y" (Value.vint 5)))
        (aset σ.heap a (Obj.dict (aset d "counter" (Value.vint (c + 2)))))
        σ.nextScope σ.nextHeap) =
      (Except.error (Err.returnSignal v),
        InterpState.mk (aset σ.scopes scope (aset m "y" (Value.vint 5)))
          (aset σ.heap a (Obj.dict (aset d "counter" (Value.vint (c + 4)))))
          σ.nextScope σ.nextHeap) := by
    have hL2 : (evalFnsAt cfg (fuel + 3)).stmtsLast
        [Ast.returnStmt (some (Ast.name "x"))] scope tools imps
        (InterpState.mk (aset σ.scopes scope (aset m "y" (Value.vint 5)))
          (aset σ.heap a (Obj.dict (aset d "counter" (Value.vint (c + 2)))))
          σ.nextScope σ.nextHeap) =
        (evalStepFns cfg (evalFnsAt cfg (fuel + 2))).stmtsLast
          [Ast.returnStmt (some (Ast.name "x"))] scope tools imps
          (InterpState.mk (aset σ.scopes scope (aset m "y" (Value.vint 5)))
            (aset σ.heap a (Obj.dict (aset d "counter" (Value.vint (c + 2)))))
            σ.nextScope σ.nextHeap) := rfl
    rw [hL2]
    simp only [evaluate_ast] at hret
    generalize hG : evalFnsAt cfg (fuel + 2) = G at hret ⊢
    simp only [evalStepFns, bind_def, hret]
  have hL : (evalFnsAt cfg (fuel + 4)).stmtsLast funcBodyC9 scope tools imps σ =
      (evalStepFns cfg (evalFnsAt cfg (fuel + 3))).stmtsLast funcBodyC9
        scope tools imps σ := rfl
  rw [hL]
  simp only [evaluate_ast] at hasg
  generalize hG : evalFnsAt cfg (fuel + 3) = G at hasg hrest ⊢
  simp only [funcBodyC9, evalStepFns, bind_def, hasg, hrest]

/-- Invoking a zero-parameter closure over the body `y = 5; return x`
from ANY caller state (lines 380-415): the body runs in a freshly
allocated scope seeded with a copy of the defining scope's CURRENT map
`m`; the Return signal becomes the call's value, namely the binding `x`
has in `m` at call time; the write to `y` lands only in the fresh scope,
every caller-visible scope map surviving verbatim in the final state; and
the only shared effect is the four governor steps on the aliased counter
dict. -/
theorem closureCall_funcBodyC9 (cfg : Config) (fuel : Nat) (defScope : Nat)
    (tools : List (String × Value)) (imps : List String) (σ : InterpState)
    (m : List (String × Value)) (a : Nat) (d : List (String × Value)) (c : Int) (v : Value)
    (hm : alookup σ.scopes defScope = some m)
    (hop : alookup m "_operations_count" = some (Value.vref a))
    (hheap : alookup σ.heap a = some (Obj.dict d))
    (hcnt : alookup d "counter" = some (Value.vint c))
    (hbud : c + 3 < (cfg.maxOperations : Int))
    (hty : alookup tools "y" = none)
    (hx : alookup m "x" = some v) :
    callClosure cfg (fuel + 5) "f" [] [] none none funcBodyC9 defScope [] [] tools imps σ =
      (Except.ok v,
        InterpState.mk ((σ.nextScope, aset m "y" (Value.vint 5)) :: σ.scopes)
          (aset σ.heap a (Obj.dict (aset d "counter" (Value.vint (c + 4)))))
          (σ.nextScope + 1) σ.nextHeap) := by
  have hsnap : getScope defScope σ = (Except.ok m, σ) := by
    simp [getScope, hm]
  have hbody := stmtsLast_funcBodyC9 cfg fuel σ.nextScope tools imps
    (InterpState.mk ((σ.nextScope, m) :: σ.scopes) σ.heap (σ.nextScope + 1) σ.nextHeap)
    m a d c v (by simp [alookup]) hop hheap hcnt hbud hty hx
  have hbody' : (evalFnsAt cfg (fuel + 4)).stmtsLast funcBodyC9 σ.nextScope tools imps
      (InterpState.mk ((σ.nextScope, m) :: σ.scopes) σ.heap (σ.nextScope + 1) σ.nextHeap) =
      (Except.error (Err.returnSignal v),
        InterpState.mk ((σ.nextScope, aset m "y" (Value.vint 5)) :: σ.scopes)
          (aset σ.heap a (Obj.dict (aset d "counter" (Value.vint (c + 4)))))
          (σ.nextScope + 1) σ.nextHeap) := by
    simpa [aset] using hbody
  have hnil : (evalFnsAt cfg (fuel + 4)).astList [] defScope tools imps σ =
      (Except.ok [], σ) := astList_nil cfg (fuel + 3) defScope tools imps σ
  have hL : callClosure cfg (fuel + 5) "f" [] [] none none funcBodyC9 defScope [] []
      tools imps σ =
      (evalStepFns cfg (evalFnsAt cfg (fuel + 4))).closureCall "f" [] [] none none
        funcBodyC9 defScope [] [] tools imps σ := rfl
  rw [hL]
  generalize hG : evalFnsAt cfg (fuel + 4) = G at hnil hbody' ⊢
  simp only [evalStepFns, bind_def, hsnap, hnil, List.zip_nil_left, List.zip_nil_right,
    List.foldl_nil, List.drop_nil, List.length_nil, allocScope, pure, catchM, hbody',
    throwM]
  simp

/-- Invoking a zero-parameter closure whose body raises no Return: the
call's value is the last executed body statement's value (here a single
constant), again from a fresh copy of the defining scope's current map
(lines 380-414: `result` is the running last-statement value,
`ReturnException` only overrides it when raised). -/
theorem closureCall_last_value (cfg : Config) (fuel : Nat) (defScope : Nat)
    (tools : List (String × Value)) (imps : List String) (σ : InterpState)
    (m : List (String × Value)) (a : Nat) (d : List (String × Value)) (c : Int)
    (hm : alookup σ.scopes defScope = some m)
    (hop : alookup m "_operations_count" = some (Value.vref a))
    (hheap : alookup σ.heap a = some (Obj.dict d))
    (hcnt : alookup d "counter" = some (Value.vint c))
    (hc : c < (cfg.maxOperations : Int)) :
    callClosure cfg (fuel + 3) "f" [] [] none none
        [Ast.constant (Const.cint 7)] defScope [] [] tools imps σ =
      (Except.ok (Value.vint 7),
        InterpState.mk ((σ.nextScope, m) :: σ.scopes)
          (aset σ.heap a (Obj.dict (aset d "counter" (Value.vint (c + 1)))))
          (σ.nextScope + 1) σ.nextHeap) := by
  have hops := opsCheck_incr cfg σ.nextScope
    (InterpState.mk ((σ.nextScope, m) :: σ.scopes) σ.heap (σ.nextScope + 1) σ.nextHeap)
    m a d c (by simp [alookup]) hop hheap hcnt hc
  have hconst : evaluate_ast cfg (fuel + 1) (Ast.constant (Const.cint 7))
      σ.nextScope tools imps
      (InterpState.mk ((σ.nextScope, m) :: σ.scopes) σ.heap (σ.nextScope + 1) σ.nextHeap) =
      (Except.ok (Value.vint 7),
        InterpState.mk ((σ.nextScope, m) :: σ.scopes)
          (aset σ.heap a (Obj.dict (aset d "counter" (Value.vint (c + 1)))))
          (σ.nextScope + 1) σ.nextHeap) := by
    have h := evaluate_ast_constant cfg fuel (Const.cint 7) σ.nextScope tools imps _ _ hops
    simpa [constToValue] using h
  have hstmts : (evalFnsAt cfg (fuel + 2)).stmtsLast [Ast.constant (Const.cint 7)]
      σ.nextScope tools imps
      (InterpState.mk ((σ.nextScope, m) :: σ.scopes) σ.heap (σ.nextScope + 1) σ.nextHeap) =
      (Except.ok (some (Value.vint 7)),
        InterpState.mk ((σ.nextScope, m) :: σ.scopes)
          (aset σ.heap a (Obj.dict (aset d "counter" (Value.vint (c + 1)))))
          (σ.nextScope + 1) σ.nextHeap) := by
    have hL2 : (evalFnsAt cfg (fuel + 2)).stmtsLast [Ast.constant (Const.cint 7)]
        σ.nextScope tools imps
        (InterpState.mk ((σ.nextScope, m) :: σ.scopes) σ.heap (σ.nextScope + 1) σ.nextHeap) =
        (evalStepFns cfg (evalFnsAt cfg (fuel + 1))).stmtsLast [Ast.constant (Const.cint 7)]
          σ.nextScope tools imps
          (InterpState.mk ((σ.nextScope, m) :: σ.scopes) σ.heap (σ.nextScope + 1) σ.nextHeap) := rfl
    rw [hL2]
    simp only [evaluate_ast] at hconst
    generalize hG : evalFnsAt cfg (fuel + 1) = G at hconst ⊢
    simp only [evalStepFns, bind_def, hconst, pure]
  have hnil : (evalFnsAt cfg (fuel + 2)).astList [] defScope tools imps σ =
      (Except.ok [], σ) := astList_nil cfg (fuel + 1) defScope tools imps σ
  have hsnap : getScope defScope σ = (Except.ok m, σ) := by
    simp [getScope, hm]
  have hL : callClosure cfg (fuel + 3) "f" [] [] none none
      [Ast.constant (Const.cint 7)] defScope [] [] tools imps σ =
      (evalStepFns cfg (evalFnsAt cfg (fuel + 2))).closureCall "f" [] [] none none
        [Ast.constant (Const.cint 7)] defScope [] [] tools imps σ := rfl
  rw [hL]
  generalize hG : evalFnsAt cfg (fuel + 2) = G at hnil hstmts ⊢
  simp only [evalStepFns, bind_def, hsnap, hnil, List.zip_nil_left, List.zip_nil_right,
    List.foldl_nil, List.drop_nil, List.length_nil, allocScope, pure, catchM, hstmts]
  simp

/-- C9.  Invoking a user-defined function (lines 380-415).
(1) `__init__` override: every successful invocation of a closure whose
name is exactly `__init__` returns None, whatever its body, arguments and
starting state.
(2) Call-site snapshot, Return-as-result, and caller isolation, from ANY
caller state: invoking a zero-parameter closure over `y = 5; return x`
runs the body in a freshly allocated scope seeded with a copy of the
defining scope's map as it stands AT THE CALL; the call's value is the
binding `x` has in that map at call time (delivered by the Return
signal); the body's write to `y` lands only in the fresh scope — every
pre-existing scope map, in particular the caller's, survives verbatim in
the final state, the only shared effect being the four governor steps on
the aliased counter dict.
(3) No Return: the call's value is the last executed body statement's
value. -/
theorem claim_C9_function_calls :
    (∀ (cfg : Config) (fuel : Nat) (argNames : List String) (defaults : List Ast)
      (vararg kwarg : Option String) (body : List Ast) (defScope : Nat)
      (args : List Value) (kwargs tools : List (String × Value)) (imps : List String)
      (σ σ' : InterpState) (v : Value),
      callClosure cfg fuel "__init__" argNames defaults vararg kwarg body defScope
        args kwargs tools imps σ = (Except.ok v, σ') → v = Value.vnone) ∧
    (∀ (cfg : Config) (fuel : Nat) (defScope : Nat) (tools : List (String × Value))
      (imps : List String) (σ : InterpState) (m : List (String × Value)) (a : Nat)
      (d : List (String × Value)) (c : Int) (v : Value),
      alookup σ.scopes defScope = some m →
      alookup m "_operations_count" = some (Value.vref a) →
      alookup σ.heap a = some (Obj.dict d) →
      alookup d "counter" = some (Value.vint c) →
      c + 3 < (cfg.maxOperations : Int) →
      alookup tools "y" = none →
      alookup m "x" = some v →
      callClosure cfg (fuel + 5) "f" [] [] none none funcBodyC9 defScope [] []
          tools imps σ =
        (Except.ok v,
          InterpState.mk ((σ.nextScope, aset m "y" (Value.vint 5)) :: σ.scopes)
            (aset σ.heap a (Obj.dict (aset d "counter" (Value.vint (c + 4)))))
            (σ.nextScope + 1) σ.nextHeap)) ∧
    (∀ (cfg : Config) (fuel : Nat) (defScope : Nat) (tools : List (String × Value))
      (imps : List String) (σ : InterpState) (m : List (String × Value)) (a : Nat)
      (d : List (String × Value)) (c : Int),
      alookup σ.scopes defScope = some m →
      alookup m "_operations_count" = some (Value.vref a) →
      alookup σ.heap a = some (Obj.dict d) →
      alookup d "counter" = some (Value.vint c) →
      c < (cfg.maxOperations : Int) →
      callClosure cfg (fuel + 3) "f" [] [] none none
          [Ast.constant (Const.cint 7)] defScope [] [] tools imps σ =
        (Except.ok (Value.vint 7),
          InterpState.mk ((σ.nextScope, m) :: σ.scopes)
            (aset σ.heap a (Obj.dict (aset d "counter" (Value.vint (c + 1)))))
            (σ.nextScope + 1) σ.nextHeap)) :=
  ⟨callClosure_init_returns_none, closureCall_funcBodyC9, closureCall_last_value⟩

/-- Witness for C9 at a concrete session state `sC9` (`x = 10`, counter
at zero): the hypotheses hold; `f()` over `y = 5; return x` returns 10
with `y` bound only in the fresh scope and the caller's scope verbatim;
a concrete `__init__` call whose body computes 7 nevertheless returns
None; and the same body under the name `f` returns 7 as the last
statement's value. -/
theorem claim_C9_function_calls_witness :
    (alookup sC9.scopes 0 = some mC9 ∧ alookup mC9 "x" = some (Value.vint 10) ∧
      alookup mC9 "_operations_count" = some (Value.vref 7) ∧
      (0 : Int) + 3 < (defaultConfig.maxOperations : Int)) ∧
    (callClosure defaultConfig 5 "f" [] [] none none funcBodyC9 0 [] [] [] [] sC9 =
      (Except.ok (Value.vint 10),
        InterpState.mk ((1, aset mC9 "y" (Value.vint 5)) :: sC9.scopes)
          (aset sC9.heap 7 (Obj.dict (aset [("counter", Value.vint 0)] "counter"
            (Value.vint 4)))) 2 8)) ∧
    (callClosure defaultConfig 3 "__init__" [] [] none none
        [Ast.constant (Const.cint 7)] 0 [] [] [] [] sC9 =
      (Except.ok Value.vnone,
        InterpState.mk [(1, mC9), (0, mC9)]
          [(7, Obj.dict [("counter", Value.vint 1)])] 2 8)) ∧
    (Value.vnone = Value.vnone) ∧
    (callClosure defaultConfig 3 "f" [] [] none none
        [Ast.constant (Const.cint 7)] 0 [] [] [] [] sC9 =
      (Except.ok (Value.vint 7),
        InterpState.mk ((1, mC9) :: sC9.scopes)
          (aset sC9.heap 7 (Obj.dict (aset [("counter", Value.vint 0)] "counter"
            (Value.vint 1)))) 2 8)) :=
  ⟨⟨rfl, rfl, rfl, by decide⟩,
   claim_C9_function_calls.2.1 defaultConfig 0 0 [] [] sC9 mC9 7
     [("counter", Value.vint 0)] 0 (Value.vint 10) rfl rfl rfl rfl (by decide) rfl rfl,
   rfl,
   claim_C9_function_calls.1 defaultConfig 3 [] [] none none
     [Ast.constant (Const.cint 7)] 0 [] [] [] [] sC9
     (InterpState.mk [(1, mC9), (0, mC9)]
       [(7, Obj.dict [("counter", Value.vint 1)])] 2 8) Value.vnone rfl,
   claim_C9_function_calls.2.2 defaultConfig 0 0 [] [] sC9 mC9 7
     [("counter", Value.vint 0)] 0 rfl rfl rfl rfl (by decide)⟩

end LocalExec
